import Mathlib

/-!
# Verification of the Mathcad-to-LaTeX translator

A shallow embedding of `mathcad_to_latex.py` (class `MathcadToLatexTranslator`,
the module-level `refine_latex`, `convert_mathcad_to_latex`).

Modelling conventions:
* Python strings are `List Char` (`Str`).  String literals are converted with
  `lit`.  Literal braces inside Lean string literals are written `\x7b` / `\x7d`.
* Python exceptions are modelled with `Except PyErr`:
  - `PyErr.valueError` — raised by `int(...)` on a non-integer literal;
  - `PyErr.recursionError` — Python's bounded call stack, modelled by a fuel
    parameter on the recursive parser;
  - `PyErr.reError` — `re.error` raised when `re.search`/`re.sub` compiles a
    pattern containing an invalid escape (`\c` from the raw operator string
    `\cdot`, etc.; an error for every Python ≥ 3.6, the minimum version able
    to run this source at all, which uses f-strings).
* Python's `str.isdigit` / `isalpha` / `isalnum` / case mapping are modelled on
  the ASCII range, which is the range the translator's tables and tags use
  (the non-ASCII table keys are replaced before any of those checks run).
* Regular expressions used by the source are hand-compiled to equivalent
  deterministic scanners; each scanner documents the pattern it implements.
-/

set_option autoImplicit false

/-- A Python string, modelled as its list of characters. -/
abbrev Str := List Char

/-- Convert a Lean string literal to the `Str` model. -/
def lit (s : String) : Str := s.data

/-- The exceptions the source can raise (see the module comment). -/
inductive PyErr where
  | valueError
  | recursionError
  | reError
  deriving DecidableEq, Repr

/-- Result of a Python function returning a string but able to raise. -/
abbrev Res := Except PyErr Str

instance {ε α : Type} [DecidableEq ε] [DecidableEq α] : DecidableEq (Except ε α) := fun a b =>
  match a, b with
  | .error e, .error f =>
    if h : e = f then .isTrue (by rw [h]) else .isFalse (fun hh => h (by injection hh))
  | .ok x, .ok y =>
    if h : x = y then .isTrue (by rw [h]) else .isFalse (fun hh => h (by injection hh))
  | .error _, .ok _ => .isFalse (fun hh => Except.noConfusion hh)
  | .ok _, .error _ => .isFalse (fun hh => Except.noConfusion hh)

/-! ## Python string primitives -/

/-- Python `str.strip()` (whitespace on both ends). -/
def pyStrip (s : Str) : Str :=
  ((s.dropWhile Char.isWhitespace).reverse.dropWhile Char.isWhitespace).reverse

/-- Python `s.find(" ")`: index of the first space, `none` for `-1`. -/
def pyFindSpace : Str → Option Nat
  | [] => none
  | c :: rest => if c = ' ' then some 0 else (pyFindSpace rest).map (fun n => n + 1)

/-- Python `pat in s` (substring containment). -/
def containsSubstr (s pat : Str) : Bool :=
  match s with
  | [] => pat.isEmpty
  | c :: rest => List.isPrefixOf pat (c :: rest) || containsSubstr rest pat

/-- Scanner for `str.replace` with a non-empty pattern `p :: ps`:
replace each non-overlapping occurrence left to right.  The `Nat` argument
is structural fuel: every step consumes at least one character, so starting
it at the string length makes the `0` fallback unreachable (this pattern
recurs in all scanners below, keeping them kernel-reducible). -/
def pyReplaceGo (p : Char) (ps rep : Str) : Nat → Str → Str
  | _, [] => []
  | 0, s => s
  | fuelLeft + 1, c :: rest =>
    if List.isPrefixOf (p :: ps) (c :: rest) then
      rep ++ pyReplaceGo p ps rep fuelLeft (rest.drop ps.length)
    else
      c :: pyReplaceGo p ps rep fuelLeft rest

/-- Python `s.replace(pat, rep)` (the empty-pattern case interleaves `rep`
between all characters, as Python does; the source never uses it). -/
def pyReplace (s pat rep : Str) : Str :=
  match pat with
  | [] => rep ++ s.flatMap (fun c => [c] ++ rep)
  | p :: ps => pyReplaceGo p ps rep s.length s

/-- Python `int(s)` as a partial function: optional surrounding whitespace,
optional sign, then decimal digits (Python's underscore grouping and
non-ASCII digits are not used by any input of this program). -/
def pyInt (s : Str) : Option Int :=
  let t := pyStrip s
  match t with
  | [] => none
  | c :: rest =>
    let signAndDigits : Bool × Str :=
      if c = '-' then (true, rest) else if c = '+' then (false, rest) else (false, c :: rest)
    let neg := signAndDigits.1
    let digits := signAndDigits.2
    if digits.isEmpty then none
    else if digits.all Char.isDigit then
      let n : Nat := digits.foldl (fun acc d => acc * 10 + (d.toNat - 48)) 0
      some (if neg then -(n : Int) else (n : Int))
    else none

/-- Python `str.isdigit()` (ASCII range). -/
def pyIsDigit (s : Str) : Bool := !s.isEmpty && s.all Char.isDigit

/-- Python `str.lower()` (ASCII range). -/
def pyLower (s : Str) : Str := s.map Char.toLower

/-- Python `str.upper()` (ASCII range). -/
def pyUpper (s : Str) : Str := s.map Char.toUpper

/-! ## Tokenizer: `_split_at_top_level`, `_extract_arguments`,
`_extract_arguments_from_op`, `_find_matching_parenthesis` -/

/-- Loop body of `_split_at_top_level`. -/
def splitAtTopLevelGo : Str → List Str → Str → Int → List Str
  | [], args, current, _ =>
    if pyStrip current ≠ [] then args ++ [pyStrip current] else args
  | c :: rest, args, current, level =>
    if c = '(' then splitAtTopLevelGo rest args (current ++ [c]) (level + 1)
    else if c = ')' then splitAtTopLevelGo rest args (current ++ [c]) (level - 1)
    else if c = ' ' ∧ level = 0 ∧ pyStrip current ≠ [] then
      splitAtTopLevelGo rest (args ++ [pyStrip current]) [] level
    else splitAtTopLevelGo rest args (current ++ [c]) level

/-- `_split_at_top_level`: split on top-level spaces, respecting nesting. -/
def splitAtTopLevel (content : Str) : List Str := splitAtTopLevelGo content [] [] 0

/-- Loop body of `_extract_arguments`; the first branch starts a new argument
when a `(` opens at depth zero after accumulated text. -/
def extractArgumentsGo : Str → List Str → Str → Int → List Str
  | [], args, current, _ =>
    if pyStrip current ≠ [] then args ++ [pyStrip current] else args
  | c :: rest, args, current, count =>
    if c = '(' ∧ count = 0 ∧ pyStrip current ≠ [] then
      extractArgumentsGo rest (args ++ [pyStrip current]) [c] (count + 1)
    else if c = '(' then extractArgumentsGo rest args (current ++ [c]) (count + 1)
    else if c = ')' then extractArgumentsGo rest args (current ++ [c]) (count - 1)
    else if c = ' ' ∧ count = 0 ∧ pyStrip current ≠ [] then
      extractArgumentsGo rest (args ++ [pyStrip current]) [] count
    else extractArgumentsGo rest args (current ++ [c]) count

/-- `_extract_arguments`: drop the tag up to the first space and the final
character (the closing parenthesis), then split. -/
def extractArguments (expression : Str) : List Str :=
  match pyFindSpace expression with
  | none => []
  | some fe =>
    let content := pyStrip ((expression.drop (fe + 1)).dropLast)
    extractArgumentsGo content [] [] 0

/-- Loop body of `_extract_arguments_from_op` (its first branch differs from
`extractArgumentsGo`: an opening parenthesis on a blank buffer is absorbed). -/
def extractArgsFromOpGo : Str → List Str → Str → Int → List Str
  | [], args, current, _ =>
    if pyStrip current ≠ [] then args ++ [pyStrip current] else args
  | c :: rest, args, current, count =>
    if c = '(' ∧ pyStrip current = [] then
      extractArgsFromOpGo rest args (current ++ [c]) (count + 1)
    else if c = '(' then extractArgsFromOpGo rest args (current ++ [c]) (count + 1)
    else if c = ')' then extractArgsFromOpGo rest args (current ++ [c]) (count - 1)
    else if c = ' ' ∧ count = 0 ∧ pyStrip current ≠ [] then
      extractArgsFromOpGo rest (args ++ [pyStrip current]) [] count
    else extractArgsFromOpGo rest args (current ++ [c]) count

/-- `_extract_arguments_from_op`. -/
def extractArgumentsFromOp (expression : Str) : List Str :=
  if expression.length < 2 then []
  else
    let content := pyStrip expression
    let content :=
      if content.head? = some '(' ∧ content.getLast? = some ')' then
        pyStrip ((content.drop 1).dropLast)
      else content
    extractArgsFromOpGo content [] [] 0

/-- Inner loop of `_find_matching_parenthesis`. -/
def findMatchGo : Str → Nat → Nat → Option Nat
  | [], _, _ => none
  | c :: rest, i, stack =>
    if c = '(' then findMatchGo rest (i + 1) (stack + 1)
    else if c = ')' then
      (if stack = 1 then some i else findMatchGo rest (i + 1) (stack - 1))
    else findMatchGo rest (i + 1) stack

/-- `_find_matching_parenthesis text start_idx` (`-1` on failure). -/
def findMatchingParenthesis (text : Str) (startIdx : Nat) : Int :=
  match text.drop startIdx with
  | '(' :: rest =>
    match findMatchGo rest (startIdx + 1) 1 with
    | some i => (i : Int)
    | none => -1
  | _ => -1

/-! ## Symbol tables (`__init__`) -/

/-- `self.operations` (this table is never consulted by the source). -/
def operations : List (Str × Str) :=
  [(lit "+", lit "+"), (lit "-", lit "-"), (lit "*", lit "\\cdot "),
   (lit "/", lit "\\frac\x7b\x7b\x7b\x7d\x7d\x7d\x7b\x7b\x7b\x7d\x7d\x7d")]

/-- `self.special_symbols`. -/
def specialSymbols : List (Str × Str) :=
  [(lit "†", lit "\x7b\\dagger\x7d"),
   (lit "‡", lit "\x7b\\ddagger\x7d"),
   (lit "∗", lit "^\x7b*\x7d"),
   (lit "°", lit "^\x7b\\circ\x7d"),
   (lit "′", lit "^\x7b\\prime\x7d"),
   (lit "″", lit "^\x7b\\prime\\prime\x7d"),
   (lit "‴", lit "^\x7b\\prime\\prime\\prime\x7d")]

/-- `self.greek_letters`. -/
def greekLetters : List (Str × Str) :=
  [(lit "α", lit "\\alpha"), (lit "β", lit "\\beta"), (lit "χ", lit "\\chi"),
   (lit "δ", lit "\\delta"), (lit "ε", lit "\\epsilon"), (lit "φ", lit "\\phi"),
   (lit "ϕ", lit "\\varphi"), (lit "γ", lit "\\gamma"), (lit "η", lit "\\eta"),
   (lit "ι", lit "\\iota"), (lit "κ", lit "\\kappa"), (lit "λ", lit "\\lambda"),
   (lit "μ", lit "\\mu"), (lit "ν", lit "\\nu"), (lit "ο", lit "\\omicron"),
   (lit "π", lit "\\pi"), (lit "θ", lit "\\theta"), (lit "ρ", lit "\\rho"),
   (lit "σ", lit "\\sigma"), (lit "τ", lit "\\tau"), (lit "υ", lit "\\upsilon"),
   (lit "ω", lit "\\omega"), (lit "ξ", lit "\\xi"), (lit "ψ", lit "\\psi"),
   (lit "ζ", lit "\\zeta"), (lit "ϑ", lit "\\vartheta"),
   (lit "Α", lit "\\Alpha"), (lit "Β", lit "\\Beta"), (lit "Χ", lit "\\Chi"),
   (lit "Δ", lit "\\Delta"), (lit "Ε", lit "\\Epsilon"), (lit "Φ", lit "\\Phi"),
   (lit "Γ", lit "\\Gamma"), (lit "Η", lit "\\Eta"), (lit "Ι", lit "\\Iota"),
   (lit "Κ", lit "\\Kappa"), (lit "Λ", lit "\\Lambda"), (lit "Μ", lit "\\Mu"),
   (lit "Ν", lit "\\Nu"), (lit "Ο", lit "\\Omicron"), (lit "Π", lit "\\Pi"),
   (lit "Θ", lit "\\Theta"), (lit "Ρ", lit "\\Rho"), (lit "Σ", lit "\\Sigma"),
   (lit "Τ", lit "\\Tau"), (lit "Υ", lit "\\Upsilon"), (lit "Ω", lit "\\Omega"),
   (lit "Ξ", lit "\\Xi"), (lit "Ψ", lit "\\Psi"), (lit "Ζ", lit "\\Zeta")]

/-- `self.units`. -/
def units : List (Str × Str) :=
  [(lit "m", lit "\\mathrm\x7bm\x7d"), (lit "kg", lit "\\mathrm\x7bkg\x7d"),
   (lit "s", lit "\\mathrm\x7bs\x7d"), (lit "A", lit "\\mathrm\x7bA\x7d"),
   (lit "K", lit "\\mathrm\x7bK\x7d"), (lit "mol", lit "\\mathrm\x7bmol\x7d"),
   (lit "cd", lit "\\mathrm\x7bcd\x7d"),
   (lit "N", lit "\\mathrm\x7bN\x7d"), (lit "n", lit "\\mathrm\x7bn\x7d"),
   (lit "newton", lit "\\mathrm\x7bN\x7d"), (lit "Pa", lit "\\mathrm\x7bPa\x7d"),
   (lit "J", lit "\\mathrm\x7bJ\x7d"), (lit "W", lit "\\mathrm\x7bW\x7d"),
   (lit "C", lit "\\mathrm\x7bC\x7d"), (lit "V", lit "\\mathrm\x7bV\x7d"),
   (lit "F", lit "\\mathrm\x7bF\x7d"), (lit "Ω", lit "\\Omega"),
   (lit "S", lit "\\mathrm\x7bS\x7d"), (lit "T", lit "\\mathrm\x7bT\x7d"),
   (lit "H", lit "\\mathrm\x7bH\x7d"), (lit "Hz", lit "\\mathrm\x7bHz\x7d"),
   (lit "min", lit "\\mathrm\x7bmin\x7d"), (lit "h", lit "\\mathrm\x7bh\x7d"),
   (lit "day", lit "\\mathrm\x7bday\x7d"), (lit "deg", lit "^\x7b\\circ\x7d"),
   (lit "rad", lit "\\mathrm\x7brad\x7d"), (lit "sr", lit "\\mathrm\x7bsr\x7d"),
   (lit "L", lit "\\mathrm\x7bL\x7d"), (lit "g", lit "\\mathrm\x7bg\x7d"),
   (lit "t", lit "\\mathrm\x7bt\x7d"), (lit "eV", lit "\\mathrm\x7beV\x7d"),
   (lit "bar", lit "\\mathrm\x7bbar\x7d"), (lit "atm", lit "\\mathrm\x7batm\x7d"),
   (lit "in", lit "\\mathrm\x7bin\x7d"), (lit "ft", lit "\\mathrm\x7bft\x7d"),
   (lit "mi", lit "\\mathrm\x7bmi\x7d"), (lit "lb", lit "\\mathrm\x7blb\x7d")]

/-- `self.constants`. -/
def constants : List (Str × Str) :=
  [(lit "c", lit "c"), (lit "e_c", lit "e"), (lit "h", lit "h"),
   (lit "ℏ", lit "\\hbar"), (lit "k", lit "k_\\mathrm\x7bB\x7d"),
   (lit "m_u", lit "m_\\mathrm\x7bu\x7d"), (lit "N_A", lit "N_\\mathrm\x7bA\x7d"),
   (lit "R", lit "R"), (lit "R_∞", lit "R_\x7b\\infty\x7d"),
   (lit "α", lit "\\alpha"), (lit "γ", lit "\\gamma"),
   (lit "ε_0", lit "\\varepsilon_0"), (lit "μ_0", lit "\\mu_0"),
   (lit "σ", lit "\\sigma"), (lit "Φ_0", lit "\\Phi_0"),
   (lit "G", lit "G"), (lit "g", lit "g"),
   (lit "M_e", lit "m_\\mathrm\x7be\x7d"), (lit "M_p", lit "m_\\mathrm\x7bp\x7d"),
   (lit "M_n", lit "m_\\mathrm\x7bn\x7d"), (lit "q_e", lit "e"),
   (lit "F", lit "F"), (lit "n_0", lit "n_0"),
   (lit "K_J", lit "K_\\mathrm\x7bJ\x7d"), (lit "R_K", lit "R_\\mathrm\x7bK\x7d"),
   (lit "μ_B", lit "\\mu_\\mathrm\x7bB\x7d"), (lit "μ_N", lit "\\mu_\\mathrm\x7bN\x7d"),
   (lit "a_0", lit "a_0"), (lit "E_h", lit "E_\\mathrm\x7bh\x7d"),
   (lit "λ_C", lit "\\lambda_\\mathrm\x7bC\x7d")]

/-- Ordered dictionary lookup (Python `d[k]` / `k in d` over our table lists). -/
def tblLookup (tbl : List (Str × Str)) (key : Str) : Option Str :=
  match tbl with
  | [] => none
  | (k, v) :: rest => if k = key then some v else tblLookup rest key

/-- Python `next((k for k in d if k.upper() == x.upper()), None)`. -/
def tblLookupCaseInsensitive (tbl : List (Str × Str)) (key : Str) : Option Str :=
  match tbl with
  | [] => none
  | (k, v) :: rest =>
    if pyUpper k = pyUpper key then some v else tblLookupCaseInsensitive rest key

/-! ## Spacing normalizer: `_add_spaces_after_commands`,
`_process_nested_structures` -/

theorem lengthDropWhileLe (p : Char → Bool) (l : Str) :
    (l.dropWhile p).length ≤ l.length := by
  induction l with
  | nil => simp [List.dropWhile]
  | cons c rest ih =>
    simp only [List.dropWhile]
    split
    · exact Nat.le_succ_of_le ih
    · exact Nat.le_refl _

/-- Hand-compiled `re.sub(r'\\CMD([a-zA-Z0-9])', r'\\CMD \1', s)` for one
command name `cmd`: insert a space between the command and a directly
following ASCII alphanumeric character, scanning left to right. -/
def subCmdAlnumGo (cmd : Str) : Nat → Str → Str
  | _, [] => []
  | 0, s => s
  | fuelLeft + 1, c :: rest =>
    if c = '\\' ∧ List.isPrefixOf cmd rest then
      match rest.drop cmd.length with
      | d :: rest2 =>
        if d.isAlphanum then
          ('\\' :: cmd) ++ ' ' :: d :: subCmdAlnumGo cmd fuelLeft rest2
        else c :: subCmdAlnumGo cmd fuelLeft rest
      | [] => c :: subCmdAlnumGo cmd fuelLeft rest
    else c :: subCmdAlnumGo cmd fuelLeft rest

/-- The 24 command names of `common_patterns`, in source order. -/
def commonPatternCommands : List Str :=
  [lit "pi", lit "alpha", lit "beta", lit "gamma", lit "delta", lit "epsilon",
   lit "zeta", lit "eta", lit "theta", lit "iota", lit "kappa", lit "lambda",
   lit "mu", lit "nu", lit "xi", lit "omicron", lit "rho", lit "sigma",
   lit "tau", lit "upsilon", lit "phi", lit "chi", lit "psi", lit "omega"]

/-- `complete_commands` of `_process_nested_structures`. -/
def completeCommands : List Str :=
  [lit "int", lit "sum", lit "prod", lit "lim", lit "frac", lit "sqrt", lit "in"]

/-- The `while` loop of `_process_nested_structures`, as a state machine over
the remaining input; the boolean is the `in_command` flag.  (The source also
tracks `brace_level`, which it never reads; it is omitted as dead state.) -/
def processNestedGo : Bool → Nat → Str → Str
  | _, _, [] => []
  | _, 0, s => s
  | inCmd, fuelLeft + 1, c :: rest =>
    if c = '\\' ∧ inCmd = false then
      let cmd := rest.takeWhile Char.isAlpha
      let rest2 := rest.dropWhile Char.isAlpha
      ('\\' :: cmd) ++ processNestedGo (!completeCommands.contains cmd) fuelLeft rest2
    else if inCmd = true ∧ ¬ c.isAlpha then
      (if c.isAlphanum ∧ c ∉ ['\x7b', '\x7d', '(', ')', '[', ']', ' '] then [' '] else [])
        ++ c :: processNestedGo false fuelLeft rest
    else
      c :: processNestedGo inCmd fuelLeft rest

/-- `_process_nested_structures`. -/
def processNestedStructures (latex : Str) : Str := processNestedGo false latex.length latex

/-- `_add_spaces_after_commands`. -/
def addSpacesAfterCommands (latex : Str) : Str :=
  if latex.isEmpty || !containsSubstr latex (lit "\\") then latex
  else
    processNestedStructures
      (commonPatternCommands.foldl (fun acc cmd => subCmdAlnumGo cmd acc.length acc) latex)

/-! ## Per-tag handlers

Each `_handle_*` method becomes a function taking the recursive
`parse_expression` as an explicit callback `parse`. -/

/-- The type of the recursive parser passed to the handlers. -/
abbrev ParseFn := Str → Res

/-- Python `s.startswith(pre)`. -/
def pyStartswith (s pre : Str) : Bool := List.isPrefixOf pre s

/-- `sep.join(parts)` as the source's accumulation loops produce it. -/
def joinSep (sep : Str) : List Str → Str
  | [] => []
  | x :: xs => x ++ xs.flatMap (fun y => sep ++ y)

/-- `_handle_integral`. -/
def handleIntegral (parse : ParseFn) (expression : Str) : Res := do
  let args := extractArguments expression
  match args with
  | a0 :: a1 :: a2 :: a3 :: _ => do
    let lowerLimit ← parse a0
    let upperLimit ← parse a1
    let integrand ← parse a2
    -- `var = parse(args[3]) if len(args) > 3 else "x"`; `len(args) >= 4` here
    let var ← parse a3
    return lit "\\int_\x7b" ++ lowerLimit ++ lit "\x7d^\x7b" ++ upperLimit
      ++ lit "\x7d " ++ integrand ++ lit " \\, d" ++ var
  | _ => return lit "\\int\x7b\x7d"

/-- `_handle_scale`. -/
def handleScale (parse : ParseFn) (expression : Str) : Res := do
  let args := extractArguments expression
  match args with
  | a0 :: a1 :: _ => do
    let value ← parse a0
    let unitExpr := a1
    match tblLookup units unitExpr with
    | some u => return value ++ lit "\\," ++ u
    | none =>
      if pyStartswith unitExpr (lit "(/") then
        match extractArguments unitExpr with
        | u0 :: u1 :: _ => do
          let numUnit ← parse u0
          let denomUnit ← parse u1
          return value ++ lit "\\,\\frac\x7b" ++ numUnit ++ lit "\x7d\x7b"
            ++ denomUnit ++ lit "\x7d"
        | _ => return value
      else if pyStartswith unitExpr (lit "(^") then
        match extractArguments unitExpr with
        | u0 :: u1 :: _ => do
          let power ← parse u1
          let baseUnit ←
            match tblLookup units u0 with
            | some b => pure b
            | none => parse u0
          return value ++ lit "\\," ++ baseUnit ++ lit "^\x7b" ++ power ++ lit "\x7d"
        | _ => return value
      else do
        let u ← parse unitExpr
        return value ++ lit "\\," ++ u
  | _ => return []

/-- `_handle_rscale`. -/
def handleRscale (parse : ParseFn) (expression : Str) : Res := do
  let args := extractArguments expression
  match args with
  | a0 :: a1 :: _ => do
    let value ←
      if pyStartswith a0 (lit "(@PARENS") then
        match extractArguments a0 with
        | v0 :: _ => parse v0
        | [] => pure []
      else parse a0
    let unitExpr := a1
    let unit ←
      if pyStartswith unitExpr (lit "(@LABEL") then
        match extractArguments unitExpr with
        | l0 :: l1 :: _ =>
          if pyUpper l0 = lit "UNIT" then
            match tblLookup units l1 with
            | some u => pure u
            | none =>
              if l1 = lit "N" then pure (lit "\\mathrm\x7bN\x7d")
              else
                match tblLookupCaseInsensitive units l1 with
                | some u => pure u
                | none => pure (lit "\\mathrm\x7b" ++ l1 ++ lit "\x7d")
          else parse unitExpr
        | _ => parse unitExpr
      else parse unitExpr
    return value ++ lit "\\," ++ unit
  | _ => return []

/-- `_handle_parentheses`. -/
def handleParentheses (parse : ParseFn) (expression : Str) : Res := do
  let args := extractArguments expression
  match args with
  | [] => return lit "()"
  | a0 :: _ => do
    let innerExpr ← parse a0
    return lit "\\left(" ++ innerExpr ++ lit "\\right)"

/-- `_handle_label`. -/
def handleLabel (parse : ParseFn) (expression : Str) : Res := do
  let args := extractArguments expression
  match args with
  | [] => return []
  | labelType :: restArgs =>
    if pyUpper labelType = lit "CONSTANT" then
      match restArgs with
      | [] => return []
      | value :: _ =>
        match tblLookup constants value with
        | some cv => return cv
        | none =>
          if pyStartswith value (lit "(@ID") then
            match extractArguments value with
            | m0 :: m1 :: _ => do
              let subSymbol ← parse m1
              let subWithoutBackslash := pyReplace subSymbol (lit "\\") []
              let constKey := m0 ++ lit "_" ++ subWithoutBackslash
              match tblLookup constants constKey with
              | some cv => return cv
              | none => return m0 ++ lit "_\x7b" ++ subSymbol ++ lit "\x7d"
            | _ => return value
          else return value
    else if pyUpper labelType = lit "UNIT" then
      match restArgs with
      | [] => return []
      | unitName :: _ =>
        match tblLookup units unitName with
        | some u => return u
        | none =>
          if unitName = lit "N" then return lit "\\mathrm\x7bN\x7d"
          else
            match tblLookupCaseInsensitive units unitName with
            | some u => return u
            | none => return lit "\\mathrm\x7b" ++ unitName ++ lit "\x7d"
    else if pyUpper labelType = lit "VARIABLE" then
      match restArgs with
      | [] => return []
      | varName :: _ => return varName
    else if pyUpper labelType = lit "FUNCTION" then
      match restArgs with
      | [] => return []
      | funcName :: _ => return lit "\\operatorname\x7b" ++ funcName ++ lit "\x7d"
    else
      match restArgs with
      | r :: _ => parse r
      | [] => return labelType

/-- `_handle_power`. -/
def handlePower (parse : ParseFn) (expression : Str) : Res := do
  let args := extractArguments expression
  match args with
  | a0 :: a1 :: _ => do
    let base ← parse a0
    let exponent ← parse a1
    if base = lit "e" then return lit "e^\x7b" ++ exponent ++ lit "\x7d"
    else return lit "\x7b" ++ base ++ lit "\x7d^\x7b" ++ exponent ++ lit "\x7d"
  | _ => return []

/-- `_handle_multiplication`. -/
def handleMultiplication (parse : ParseFn) (expression : Str) : Res := do
  let args := extractArguments expression
  if args.isEmpty then return []
  else do
    let parsed ← args.mapM parse
    return joinSep (lit " \\cdot ") parsed

/-- `_handle_division`. -/
def handleDivision (parse : ParseFn) (expression : Str) : Res := do
  let args := extractArguments expression
  match args with
  | a0 :: a1 :: _ => do
    let numerator ← parse a0
    let denominator ← parse a1
    return lit "\\frac\x7b" ++ numerator ++ lit "\x7d\x7b" ++ denominator ++ lit "\x7d"
  | _ => return []

/-- `_handle_addition`. -/
def handleAddition (parse : ParseFn) (expression : Str) : Res := do
  let args := extractArguments expression
  if args.isEmpty then return []
  else do
    let parsed ← args.mapM parse
    return joinSep (lit " + ") parsed

/-- `_handle_subtraction`. -/
def handleSubtraction (parse : ParseFn) (expression : Str) : Res := do
  let args := extractArguments expression
  match args with
  | a0 :: a1 :: _ => do
    let minuend ← parse a0
    let subtrahend ← parse a1
    return minuend ++ lit " - " ++ subtrahend
  | _ => return []

/-- `_handle_greater_than`. -/
def handleGreaterThan (parse : ParseFn) (expression : Str) : Res := do
  let args := extractArguments expression
  match args with
  | a0 :: a1 :: _ => do
    let l ← parse a0
    let r ← parse a1
    return l ++ lit " > " ++ r
  | _ => return []

/-- `_handle_less_than`. -/
def handleLessThan (parse : ParseFn) (expression : Str) : Res := do
  let args := extractArguments expression
  match args with
  | a0 :: a1 :: _ => do
    let l ← parse a0
    let r ← parse a1
    return l ++ lit " < " ++ r
  | _ => return []

/-- `_handle_nthroot`. -/
def handleNthroot (parse : ParseFn) (expression : Str) : Res := do
  let args := extractArguments expression
  match args with
  | a0 :: a1 :: _ => do
    let n ← if a0 = lit "@PLACEHOLDER" then pure [] else parse a0
    let radicand ← parse a1
    if n = lit "2" ∨ n = [] then return lit "\\sqrt\x7b" ++ radicand ++ lit "\x7d"
    else return lit "\\sqrt[" ++ n ++ lit "]\x7b" ++ radicand ++ lit "\x7d"
  | _ => return []

/-- `_handle_partial_derivative`. -/
def handlePartialDerivative (parse : ParseFn) (expression : Str) : Res := do
  let args := extractArguments expression
  match args with
  | a0 :: a1 :: a2 :: restA => do
    let diffVar ← parse a0
    let order ←
      if pyIsDigit a1 then pure a1
      else if a1 = lit "@PLACEHOLDER" ∧ restA ≠ [] then parse (restA.headD [])
      else pure []
    let function ←
      if pyStartswith a2 (lit "(@PARENS") then
        match extractArguments a2 with
        | i0 :: _ => do
          let f ← parse i0
          pure (lit "\\left(" ++ f ++ lit "\\right)")
        | [] => pure []
      else parse a2
    if order ≠ [] then
      return lit "\\frac\x7b\\partial^\x7b" ++ order ++ lit "\x7d\x7d\x7b\\partial "
        ++ diffVar ++ lit "^\x7b" ++ order ++ lit "\x7d\x7d " ++ function
    else
      return lit "\\frac\x7b\\partial\x7d\x7b\\partial " ++ diffVar ++ lit "\x7d " ++ function
  | _ => return []

/-- `_handle_limit`. -/
def handleLimit (parse : ParseFn) (expression : Str) : Res := do
  let args := extractArguments expression
  match args with
  | a0 :: a1 :: a2 :: _ => do
    let diffVar ← parse a0
    let approachValue ← parse a1
    let dirAndIdx : Str × Nat :=
      if a2 = lit "@LEFT_HAND" then (lit "^\x7b-\x7d", 3)
      else if a2 = lit "@RIGHT_HAND" then (lit "^\x7b+\x7d", 3)
      else ([], 2)
    let funcIndex := dirAndIdx.2
    let function ←
      if args.length > funcIndex then
        let funcArg := args.getD funcIndex []
        if pyStartswith funcArg (lit "(@PARENS") then
          match extractArguments funcArg with
          | i0 :: _ => do
            let f ← parse i0
            pure (lit "\\left(" ++ f ++ lit "\\right)")
          | [] => pure []
        else parse funcArg
      else pure diffVar
    return lit "\\lim_\x7b" ++ diffVar ++ lit " \\to " ++ approachValue
      ++ dirAndIdx.1 ++ lit "\x7d " ++ function
  | _ => return []

/-- `_handle_derivative`. -/
def handleDerivative (parse : ParseFn) (expression : Str) : Res := do
  let args := extractArguments expression
  match args with
  | a0 :: a1 :: a2 :: _ => do
    let diffVar ← parse a0
    let order ← if a1 = lit "@PLACEHOLDER" then pure (lit "1") else parse a1
    let function ←
      if pyStartswith a2 (lit "(@PARENS") then
        match extractArguments a2 with
        | i0 :: _ => do
          let f ← parse i0
          pure (lit "\\left(" ++ f ++ lit "\\right)")
        | [] => pure []
      else parse a2
    if order = lit "1" then
      return lit "\\frac\x7b\\mathrm\x7bd\x7d\x7d\x7b\\mathrm\x7bd\x7d"
        ++ diffVar ++ lit "\x7d " ++ function
    else
      return lit "\\frac\x7b\\mathrm\x7bd\x7d^\x7b" ++ order
        ++ lit "\x7d\x7d\x7b\\mathrm\x7bd\x7d" ++ diffVar ++ lit "^\x7b" ++ order
        ++ lit "\x7d\x7d " ++ function
  | _ => return []

/-- `_handle_prime` (note `int(args[1])` can raise `ValueError`). -/
def handlePrime (parse : ParseFn) (expression : Str) : Res := do
  let args := extractArguments expression
  match args with
  | [] => return []
  | a0 :: restA => do
    let function ← parse a0
    let count : Int ←
      match restA with
      | a1 :: _ =>
        match pyInt a1 with
        | some n => pure n
        | none => throw PyErr.valueError
      | [] => pure 1
    return function ++ List.replicate count.toNat (Char.ofNat 39)

/-- `_handle_product`. -/
def handleProduct (parse : ParseFn) (expression : Str) : Res := do
  let args := extractArguments expression
  match args with
  | a0 :: a1 :: a2 :: restA => do
    let varStart : Str × Str ←
      if pyStartswith a0 (lit "(@IS") then
        match extractArguments a0 with
        | i0 :: i1 :: _ => do
          let v ← parse i0
          let s ← parse i1
          pure (v, s)
        | _ => pure (lit "i", lit "0")
      else do
        let v ← parse a0
        pure (v, [])
    let var := varStart.1
    let upper ← parse a1
    -- `if len(args) > 2 and not args[0].startswith("(@IS")`; `len(args) >= 3` here
    if !pyStartswith a0 (lit "(@IS") then do
      let startVal ← parse a1
      let upper ← parse a2
      let expr ←
        match restA with
        | a3 :: _ => parse a3
        | [] => pure (lit "1")
      if startVal ≠ [] then
        return lit "\\prod_\x7b" ++ var ++ lit "=" ++ startVal ++ lit "\x7d^\x7b"
          ++ upper ++ lit "\x7d " ++ expr
      else
        return lit "\\prod^\x7b" ++ upper ++ lit "\x7d_\x7b" ++ var ++ lit "\x7d " ++ expr
    else do
      let expr ← parse a2
      let startVal := varStart.2
      if startVal ≠ [] then
        return lit "\\prod_\x7b" ++ var ++ lit "=" ++ startVal ++ lit "\x7d^\x7b"
          ++ upper ++ lit "\x7d " ++ expr
      else
        return lit "\\prod^\x7b" ++ upper ++ lit "\x7d_\x7b" ++ var ++ lit "\x7d " ++ expr
  | _ => return []

/-- `_handle_sum`. -/
def handleSum (parse : ParseFn) (expression : Str) : Res := do
  let args := extractArguments expression
  match args with
  | a0 :: a1 :: a2 :: _ => do
    let varStart : Str × Str ←
      if pyStartswith a0 (lit "(@IS") then
        match extractArguments a0 with
        | i0 :: i1 :: _ => do
          let v ← parse i0
          let s ← parse i1
          pure (v, s)
        | _ => pure (lit "i", lit "1")
      else do
        let v ← parse a0
        pure (v, lit "1")
    let upper ← parse a1
    let expr ← parse a2
    return lit "\\sum_\x7b" ++ varStart.1 ++ lit "=" ++ varStart.2 ++ lit "\x7d^\x7b"
      ++ upper ++ lit "\x7d " ++ expr
  | _ => return lit "\\sum"

/-- `_handle_element_of`. -/
def handleElementOf (parse : ParseFn) (expression : Str) : Res := do
  let args := extractArguments expression
  match args with
  | a0 :: a1 :: _ => do
    let element ← parse a0
    let setExpr ← parse a1
    return element ++ lit " \\in " ++ setExpr
  | _ => return []

/-- `_handle_xor`. -/
def handleXor (parse : ParseFn) (expression : Str) : Res := do
  let args := extractArguments expression
  match args with
  | a0 :: a1 :: _ => do
    let l ← parse a0
    let r ← parse a1
    return l ++ lit " \\oplus " ++ r
  | _ => return []

/-- `_handle_geq`. -/
def handleGeq (parse : ParseFn) (expression : Str) : Res := do
  let args := extractArguments expression
  match args with
  | a0 :: a1 :: _ => do
    let l ← parse a0
    let r ← parse a1
    return l ++ lit " \\geq " ++ r
  | _ => return []

/-- `_handle_leq`. -/
def handleLeq (parse : ParseFn) (expression : Str) : Res := do
  let args := extractArguments expression
  match args with
  | a0 :: a1 :: _ => do
    let l ← parse a0
    let r ← parse a1
    return l ++ lit " \\leq " ++ r
  | _ => return []

/-- `_handle_and`. -/
def handleAnd (parse : ParseFn) (expression : Str) : Res := do
  let args := extractArguments expression
  if args.length < 2 then return []
  else do
    let parsed ← args.mapM parse
    return joinSep (lit " \\land ") parsed

/-- `_handle_or`. -/
def handleOr (parse : ParseFn) (expression : Str) : Res := do
  let args := extractArguments expression
  if args.length < 2 then return []
  else do
    let parsed ← args.mapM parse
    return joinSep (lit " \\lor ") parsed

/-- `_handle_not`. -/
def handleNot (parse : ParseFn) (expression : Str) : Res := do
  let args := extractArguments expression
  match args with
  | [] => return []
  | a0 :: _ => do
    let operand ← parse a0
    return lit "\\neg " ++ operand

/-- `_handle_neq`. -/
def handleNeq (parse : ParseFn) (expression : Str) : Res := do
  let args := extractArguments expression
  match args with
  | a0 :: a1 :: _ => do
    let l ← parse a0
    let r ← parse a1
    return l ++ lit " \\neq " ++ r
  | _ => return []

/-- `_handle_negation`. -/
def handleNegation (parse : ParseFn) (expression : Str) : Res := do
  let args := extractArguments expression
  match args with
  | [] => return []
  | a0 :: _ => do
    let operand ← parse a0
    if containsSubstr operand (lit " ") || containsSubstr operand (lit "+")
        || containsSubstr operand (lit "-") then
      return lit "-\\left(" ++ operand ++ lit "\\right)"
    else return lit "-" ++ operand

/-- `_handle_is`. -/
def handleIs (parse : ParseFn) (expression : Str) : Res := do
  let args := extractArguments expression
  match args with
  | a0 :: a1 :: _ => do
    let l ← parse a0
    let r ← parse a1
    return l ++ lit " = " ++ r
  | _ => return []

/-- `_handle_cross`. -/
def handleCross (parse : ParseFn) (expression : Str) : Res := do
  let args := extractArguments expression
  match args with
  | a0 :: a1 :: _ => do
    let l ← parse a0
    let r ← parse a1
    return l ++ lit " \\times " ++ r
  | _ => return []

/-- `_handle_dot`. -/
def handleDot (parse : ParseFn) (expression : Str) : Res := do
  let args := extractArguments expression
  match args with
  | a0 :: a1 :: _ => do
    let l ← parse a0
    let r ← parse a1
    return l ++ lit " \\cdot " ++ r
  | _ => return []

/-- `_handle_sym_eval`. -/
def handleSymEval (parse : ParseFn) (expression : Str) : Res := do
  let args := extractArguments expression
  match args with
  | a0 :: a1 :: _ => do
    let leftExpr ← parse a0
    -- `if len(args) > 1 and args[1].startswith("(@KW_STACK")`; `len(args) >= 2` here
    let rightIndex := if pyStartswith a1 (lit "(@KW_STACK") then 2 else 1
    let rightExpr ←
      if args.length > rightIndex then parse (args.getD rightIndex [])
      else pure []
    if rightExpr ≠ [] then return leftExpr ++ lit " \\rightarrow " ++ rightExpr
    else return leftExpr
  | _ => return []

/-- The top-level-space search loop of `_handle_equals`. -/
def findTopSpaceIdx : Str → Int → Nat → Option Nat
  | [], _, _ => none
  | c :: rest, level, i =>
    if c = '(' then findTopSpaceIdx rest (level + 1) (i + 1)
    else if c = ')' then findTopSpaceIdx rest (level - 1) (i + 1)
    else if c = ' ' ∧ level = 0 then some i
    else findTopSpaceIdx rest level (i + 1)

/-- Python `s.split(None, 1)`: split on the first whitespace run. -/
def pySplitNoneOnce (s : Str) : List Str :=
  let t := s.dropWhile Char.isWhitespace
  if t.isEmpty then []
  else
    let w := t.takeWhile (fun c => !c.isWhitespace)
    let rest := (t.dropWhile (fun c => !c.isWhitespace)).dropWhile Char.isWhitespace
    if rest.isEmpty then [w] else [w, rest]

/-- `_handle_equals`. -/
def handleEquals (parse : ParseFn) (expression : Str) : Res := do
  let content := pyStrip ((expression.drop 2).dropLast)
  match findTopSpaceIdx content 0 0 with
  | some sp => do
    let leftExpr := pyStrip (content.take sp)
    let rightExpr := pyStrip (content.drop (sp + 1))
    let left ← parse leftExpr
    let right ← parse rightExpr
    return left ++ lit " = " ++ right
  | none =>
    match pySplitNoneOnce content with
    | l :: r :: _ => do
      let left ← parse l
      let right ← parse r
      return left ++ lit " = " ++ right
    | _ => return expression

/-- `_handle_subscript`. -/
def handleSubscript (parse : ParseFn) (expression : Str) : Res := do
  let args := extractArguments expression
  match args with
  | [] => return []
  | a0 :: _ => do
    let subscriptVal ← parse a0
    return lit "\x7b" ++ subscriptVal ++ lit "\x7d"

/-- Try `re.search(r'\(@ID\s+([^\s\)]+)', ...)` at the head of `s`:
literal `(@ID`, one or more whitespace, then the maximal nonempty run of
characters that are neither whitespace nor `)` (group 1). -/
def idScanAt (s : Str) : Option Str :=
  if pyStartswith s (lit "(@ID") then
    let r := s.drop 4
    if (r.takeWhile Char.isWhitespace).isEmpty then none
    else
      let r2 := r.dropWhile Char.isWhitespace
      let g := r2.takeWhile (fun c => !(c.isWhitespace || c = ')'))
      if g.isEmpty then none else some g
  else none

/-- Leftmost match of the `(@ID` pattern (the `re.search` of
`_handle_identifier_with_subscript`). -/
def findIdMatch : Str → Option Str
  | [] => none
  | c :: rest =>
    match idScanAt (c :: rest) with
    | some g => some g
    | none => findIdMatch rest

/-- Python `s.find(pat)` as an option. -/
def findSubstrIdx : Str → Str → Option Nat
  | [], pat => if pat.isEmpty then some 0 else none
  | c :: rest, pat =>
    if List.isPrefixOf pat (c :: rest) then some 0
    else (findSubstrIdx rest pat).map (fun n => n + 1)

/-- `_handle_identifier_with_subscript`. -/
def handleIdentifierWithSubscript (parse : ParseFn) (expression : Str) : Res := do
  match findIdMatch expression with
  | none => return expression
  | some identifier =>
    match findSubstrIdx expression (lit "(@SUB") with
    | none => return identifier
    | some subStart =>
      let subExpr := expression.drop subStart
      let closing := findMatchingParenthesis subExpr 0
      if closing ≠ -1 then
        let subscriptExpr := subExpr.take (closing.toNat + 1)
        match extractArguments subscriptExpr with
        | s0 :: _ => do
          let subscriptVal ← parse s0
          return identifier ++ lit "_\x7b" ++ subscriptVal ++ lit "\x7d"
        | [] => return identifier
      else return identifier

/-- The inline addition split of `_handle_equation` (tests the raw buffer for
emptiness, unlike `_split_at_top_level` which tests the stripped buffer). -/
def eqAddSplitGo : Str → List Str → Str → Int → List Str
  | [], args, current, _ =>
    if current ≠ [] then args ++ [pyStrip current] else args
  | c :: rest, args, current, parenCount =>
    if c = '(' then eqAddSplitGo rest args (current ++ [c]) (parenCount + 1)
    else if c = ')' then eqAddSplitGo rest args (current ++ [c]) (parenCount - 1)
    else if c = ' ' ∧ parenCount = 0 ∧ current ≠ [] then
      eqAddSplitGo rest (args ++ [pyStrip current]) [] parenCount
    else eqAddSplitGo rest args (current ++ [c]) parenCount

/-- `_handle_equation`. -/
def handleEquation (parse : ParseFn) (expression : Str) : Res := do
  let args := extractArguments expression
  match args with
  | a0 :: a1 :: _ => do
    let left ← parse a0
    let rightExpr := a1
    let right ←
      if pyStartswith rightExpr (lit "(+") then do
        let content := pyStrip ((rightExpr.drop 2).dropLast)
        let additionArgs := eqAddSplitGo content [] [] 0
        if additionArgs ≠ [] then do
          let parsed ← additionArgs.mapM parse
          pure (joinSep (lit " + ") parsed)
        else parse rightExpr
      else if pyStartswith rightExpr (lit "(-") then do
        let subtractionArgs := extractArgumentsFromOp (rightExpr.drop 1)
        match subtractionArgs with
        | s0 :: s1 :: [] => do
          let l ← parse s0
          let r ← parse s1
          pure (l ++ lit " - " ++ r)
        | _ => parse rightExpr
      else if pyStartswith rightExpr (lit "(*") then do
        let multiplicationArgs := extractArgumentsFromOp (rightExpr.drop 1)
        let parsed ← multiplicationArgs.mapM parse
        pure (joinSep (lit " \\cdot ") parsed)
      else if pyStartswith rightExpr (lit "(/") then do
        let divisionArgs := extractArgumentsFromOp (rightExpr.drop 1)
        match divisionArgs with
        | d0 :: d1 :: [] => do
          let n ← parse d0
          let d ← parse d1
          pure (lit "\\frac\x7b" ++ n ++ lit "\x7d\x7b" ++ d ++ lit "\x7d")
        | _ => parse rightExpr
      else parse rightExpr
    return left ++ lit " = " ++ right
  | _ => return []

/-- `_handle_args`. -/
def handleArgs (parse : ParseFn) (expression : Str) : Res := do
  let args := extractArguments expression
  if args.isEmpty then return []
  else do
    let parsed ← args.mapM parse
    return joinSep (lit ", ") parsed

/-- `math_functions` of `_handle_apply` (`abs` holds the `#` placeholder). -/
def mathFunctions : List (Str × Str) :=
  [(lit "sin", lit "\\sin"), (lit "cos", lit "\\cos"), (lit "tan", lit "\\tan"),
   (lit "cot", lit "\\cot"), (lit "sec", lit "\\sec"), (lit "csc", lit "\\csc"),
   (lit "arcsin", lit "\\arcsin"), (lit "arccos", lit "\\arccos"),
   (lit "arctan", lit "\\arctan"), (lit "sinh", lit "\\sinh"),
   (lit "cosh", lit "\\cosh"), (lit "tanh", lit "\\tanh"),
   (lit "ln", lit "\\ln"), (lit "log", lit "\\log"),
   (lit "log10", lit "\\log_\x7b10\x7d"), (lit "exp", lit "\\exp"),
   (lit "abs", lit "\\left|#\\right|"), (lit "max", lit "\\max"),
   (lit "min", lit "\\min")]

/-- `_handle_apply`. -/
def handleApply (parse : ParseFn) (expression : Str) : Res := do
  let args := extractArguments expression
  match args with
  | [] => return []
  | a0 :: restA => do
    let funcName := pyLower a0
    let latexFunc := (tblLookup mathFunctions funcName).getD funcName
    match restA with
    | a1 :: _ =>
      if pyStartswith a1 (lit "(@ARGS") then do
        let argsExpr ← handleArgs parse a1
        if funcName = lit "abs" then
          return pyReplace latexFunc (lit "#") argsExpr
        else
          return latexFunc ++ lit "(" ++ argsExpr ++ lit ")"
      else return latexFunc
    | [] => return latexFunc

/-- `_handle_matrix` (note `int(...)` on the row/column counts can raise
`ValueError`). -/
def handleMatrix (parse : ParseFn) (expression : Str) : Res := do
  let args := extractArguments expression
  match args with
  | a0 :: a1 :: _ :: _ => do
    let rows : Int ←
      match pyInt a0 with
      | some n => pure n
      | none => throw PyErr.valueError
    let cols : Int ←
      match pyInt a1 with
      | some n => pure n
      | none => throw PyErr.valueError
    let elements := args.drop 2
    let elements :=
      if (elements.length : Int) ≠ rows * cols then
        elements ++ List.replicate (rows * cols - (elements.length : Int)).toNat (lit "0")
      else elements
    let rowsList ← (List.range rows.toNat).mapM (fun i =>
      (List.range cols.toNat).mapM (fun j =>
        let idx := i * cols.toNat + j
        if h : idx < elements.length then parse (elements.get ⟨idx, h⟩)
        else pure (lit "0")))
    let body := joinSep (lit " \\\\\n") (rowsList.map (joinSep (lit " & ")))
    return lit "\\begin\x7bpmatrix\x7d\n" ++ body ++ lit "\n\\end\x7bpmatrix\x7d"
  | _ => return lit "\\begin\x7bpmatrix\x7d \\end\x7bpmatrix\x7d"

/-! ## `_handle_complex_evaluation`

Its four leading branches (the only ones reachable from `parse_expression`,
whose guard requires one of the prefixes `(/`, `(*`, `(+`, `(-`) use
`_split_at_top_level`; the regex rewrite passes after them are translated as
deterministic scanners equivalent to the source's patterns. -/

/-- `[A-Z]` class. -/
def isUpperAZ (c : Char) : Bool := 'A' ≤ c && c ≤ 'Z'

/-- Generic driver for `re.sub` given a matcher that returns the replacement
text and the (positive) matched length at the current position. -/
def regexSubGo (matchAt : Str → Option (Str × Nat)) : Nat → Str → Str
  | _, [] => []
  | 0, s => s
  | fuelLeft + 1, c :: rest =>
    match matchAt (c :: rest) with
    | some (rep, n) => rep ++ regexSubGo matchAt fuelLeft (rest.drop (n - 1))
    | none => c :: regexSubGo matchAt fuelLeft rest

/-- `re.sub` over a whole string. -/
def regexSub (matchAt : Str → Option (Str × Nat)) (s : Str) : Str :=
  regexSubGo matchAt s.length s

/-- Monadic variant of `regexSubGo` for replacement functions that can parse
(and hence raise). -/
def regexSubGoM (matchAt : Str → Option (Res × Nat)) : Nat → Str → Res
  | _, [] => pure []
  | 0, s => pure s
  | fuelLeft + 1, c :: rest =>
    match matchAt (c :: rest) with
    | some (rep, n) => do
      let r ← rep
      let tail ← regexSubGoM matchAt fuelLeft (rest.drop (n - 1))
      pure (r ++ tail)
    | none => do
      let tail ← regexSubGoM matchAt fuelLeft rest
      pure (c :: tail)

/-- Monadic `re.sub` over a whole string. -/
def regexSubM (matchAt : Str → Option (Res × Nat)) (s : Str) : Res :=
  regexSubGoM matchAt s.length s

/-- Match `\(@LABEL\s+([A-Z]+)\s+([^)]+)\)` at the head: returns the two
groups and the matched length. -/
def labelMatchAt (s : Str) : Option (Str × Str × Nat) :=
  if pyStartswith s (lit "(@LABEL") then
    let r := s.drop 7
    let ws1 := r.takeWhile Char.isWhitespace
    if ws1.isEmpty then none else
    let r1 := r.dropWhile Char.isWhitespace
    let g1 := r1.takeWhile isUpperAZ
    if g1.isEmpty then none else
    let r2 := r1.drop g1.length
    let ws2 := r2.takeWhile Char.isWhitespace
    if ws2.isEmpty then none else
    let r3 := r2.dropWhile Char.isWhitespace
    let g2 := r3.takeWhile (fun c => c ≠ ')')
    if g2.isEmpty then none else
    match r3.drop g2.length with
    | ')' :: _ =>
      some (g1, g2, 7 + ws1.length + g1.length + ws2.length + g2.length + 1)
    | _ => none
  else none

/-- The `replace_labels` callback. -/
def replaceLabelsFn (labelType content : Str) : Str :=
  if pyUpper labelType = lit "CONSTANT" then
    match tblLookup constants content with
    | some v => v
    | none => content
  else if pyUpper labelType = lit "VARIABLE" then content
  else if pyUpper labelType = lit "UNIT" then
    match tblLookup units content with
    | some v => v
    | none => lit "\\mathrm\x7b" ++ content ++ lit "\x7d"
  else if pyUpper labelType = lit "FUNCTION" then
    lit "\\operatorname\x7b" ++ content ++ lit "\x7d"
  else content

/-- `re.search` for the `(@LABEL` pattern (used inside `replace_functions`). -/
def labelSearch : Str → Option (Str × Str)
  | [] => none
  | c :: rest =>
    match labelMatchAt (c :: rest) with
    | some (g1, g2, _) => some (g1, g2)
    | none => labelSearch rest

/-- One candidate split for `([^)]+)\s+\(@ARGS\s+([^)]+)\)\)` inside the
run `R` of non-`)` characters (`p` = where group 1 ends). -/
def applyTrySplitAt (R after : Str) (p : Nat) : Option (Str × Str) :=
  let g1 := R.take p
  let post := R.drop p
  let ws2 := post.takeWhile Char.isWhitespace
  if ws2.isEmpty then none else
  let post1 := post.drop ws2.length
  if pyStartswith post1 (lit "(@ARGS") then
    let post2 := post1.drop 6
    let ws3 := post2.takeWhile Char.isWhitespace
    if ws3.isEmpty then none else
    let g2 := post2.drop ws3.length
    if g2.isEmpty then
      -- the greedy `\s+` gives one character back so `([^)]+)` is nonempty
      if ws3.length ≥ 2 then
        match after with
        | ')' :: ')' :: _ => some (g1, post2.drop (ws3.length - 1))
        | _ => none
      else none
    else
      match after with
      | ')' :: ')' :: _ => some (g1, g2)
      | _ => none
  else none

/-- Backtracking order of the greedy group 1: longest first. -/
def applyTrySplit (R after : Str) : Nat → Option (Str × Str)
  | 0 => none
  | p + 1 =>
    match applyTrySplitAt R after (p + 1) with
    | some res => some res
    | none => applyTrySplit R after p

/-- Match `\(@APPLY\s+([^)]+)\s+\(@ARGS\s+([^)]+)\)\)` at the head. -/
def applyMatchAt (s : Str) : Option (Str × Str × Nat) :=
  if pyStartswith s (lit "(@APPLY") then
    let r := s.drop 7
    let ws1 := r.takeWhile Char.isWhitespace
    if ws1.isEmpty then none else
    let r1 := r.dropWhile Char.isWhitespace
    let R := r1.takeWhile (fun c => c ≠ ')')
    let after := r1.drop R.length
    match applyTrySplit R after (R.length - 1) with
    | some (g1, g2) => some (g1, g2, 7 + ws1.length + R.length + 2)
    | none => none
  else none

/-- The `replace_functions` callback (may call back into the parser). -/
def replaceFunctionsFn (parse : ParseFn) (funcName arg : Str) : Res := do
  if pyStartswith funcName (lit "(@LABEL") then
    match labelSearch funcName with
    | some (g1, g2) =>
      if pyUpper g1 = lit "FUNCTION" then
        pure (lit "\\operatorname\x7b" ++ g2 ++ lit "\x7d(" ++ arg ++ lit ")")
      else do
        let fn ← parse funcName
        pure (fn ++ lit "(" ++ arg ++ lit ")")
    | none => do
      let fn ← parse funcName
      pure (fn ++ lit "(" ++ arg ++ lit ")")
  else pure (funcName ++ lit "(" ++ arg ++ lit ")")

/-- One candidate split for `([^)]+)\s+([^)]+)\)` inside the run `R`. -/
def opTrySplitAt (R : Str) (p : Nat) : Option (Str × Str) :=
  let g1 := R.take p
  let post := R.drop p
  let ws := post.takeWhile Char.isWhitespace
  if ws.isEmpty then none else
  let g2 := post.drop ws.length
  if g2.isEmpty then
    if ws.length ≥ 2 then some (g1, post.drop (ws.length - 1)) else none
  else some (g1, g2)

/-- Backtracking order of the greedy group 1: longest first. -/
def opTrySplit (R : Str) : Nat → Option (Str × Str)
  | 0 => none
  | p + 1 =>
    match opTrySplitAt R (p + 1) with
    | some res => some res
    | none => opTrySplit R p

/-- Match `\(X\s+([^)]+)\s+([^)]+)\)` at the head, for operator character
`X` (the five `op_patterns`). -/
def opMatchAt (opc : Char) (s : Str) : Option (Str × Str × Nat) :=
  if pyStartswith s ['(', opc] then
    let r := s.drop 2
    let ws1 := r.takeWhile Char.isWhitespace
    if ws1.isEmpty then none else
    let r1 := r.dropWhile Char.isWhitespace
    let R := r1.takeWhile (fun c => c ≠ ')')
    match r1.drop R.length with
    | ')' :: _ =>
      match opTrySplit R (R.length - 1) with
      | some (g1, g2) => some (g1, g2, 2 + ws1.length + R.length + 1)
      | none => none
    | _ => none
  else none

/-- Match `\(@[A-Z_]+` at the head (first cleanup pass; replaced by `""`). -/
def tagMarkMatchAt (s : Str) : Option Nat :=
  if pyStartswith s (lit "(@") then
    let g := (s.drop 2).takeWhile (fun c => isUpperAZ c || c = '_')
    if g.isEmpty then none else some (2 + g.length)
  else none

/-- Match `\(@([A-Z_]+)([^)]*)\)` at the head (the reflective fallback). -/
def specialTagMatchAt (s : Str) : Option (Str × Str × Nat) :=
  if pyStartswith s (lit "(@") then
    let g1 := (s.drop 2).takeWhile (fun c => isUpperAZ c || c = '_')
    if g1.isEmpty then none else
    let r := (s.drop 2).drop g1.length
    let g2 := r.takeWhile (fun c => c ≠ ')')
    match r.drop g2.length with
    | ')' :: _ => some (g1, g2, 2 + g1.length + g2.length + 1)
    | _ => none
  else none

/-- `hasattr(self, "_handle_" + cmd.lower())` plus `getattr`: the table of
handler methods, keyed by method-name suffix. -/
def handlerByName (parse : ParseFn) (selfComplex : Str → Res) (name : Str) :
    Option (Str → Res) :=
  if name = lit "complex_evaluation" then some selfComplex
  else if name = lit "integral" then some (handleIntegral parse)
  else if name = lit "scale" then some (handleScale parse)
  else if name = lit "rscale" then some (handleRscale parse)
  else if name = lit "parentheses" then some (handleParentheses parse)
  else if name = lit "label" then some (handleLabel parse)
  else if name = lit "power" then some (handlePower parse)
  else if name = lit "multiplication" then some (handleMultiplication parse)
  else if name = lit "division" then some (handleDivision parse)
  else if name = lit "addition" then some (handleAddition parse)
  else if name = lit "subtraction" then some (handleSubtraction parse)
  else if name = lit "greater_than" then some (handleGreaterThan parse)
  else if name = lit "less_than" then some (handleLessThan parse)
  else if name = lit "nthroot" then some (handleNthroot parse)
  else if name = lit "partial_derivative" then some (handlePartialDerivative parse)
  else if name = lit "limit" then some (handleLimit parse)
  else if name = lit "derivative" then some (handleDerivative parse)
  else if name = lit "prime" then some (handlePrime parse)
  else if name = lit "product" then some (handleProduct parse)
  else if name = lit "sum" then some (handleSum parse)
  else if name = lit "element_of" then some (handleElementOf parse)
  else if name = lit "xor" then some (handleXor parse)
  else if name = lit "geq" then some (handleGeq parse)
  else if name = lit "leq" then some (handleLeq parse)
  else if name = lit "and" then some (handleAnd parse)
  else if name = lit "or" then some (handleOr parse)
  else if name = lit "not" then some (handleNot parse)
  else if name = lit "neq" then some (handleNeq parse)
  else if name = lit "negation" then some (handleNegation parse)
  else if name = lit "is" then some (handleIs parse)
  else if name = lit "apply" then some (handleApply parse)
  else if name = lit "args" then some (handleArgs parse)
  else if name = lit "matrix" then some (handleMatrix parse)
  else if name = lit "cross" then some (handleCross parse)
  else if name = lit "dot" then some (handleDot parse)
  else if name = lit "sym_eval" then some (handleSymEval parse)
  else if name = lit "equals" then some (handleEquals parse)
  else if name = lit "subscript" then some (handleSubscript parse)
  else if name = lit "identifier_with_subscript" then
    some (handleIdentifierWithSubscript parse)
  else if name = lit "equation" then some (handleEquation parse)
  else none

/-- `_handle_complex_evaluation`.  The fuel bounds the self-recursion that the
reflective fallback's handler table makes possible. -/
def handleComplexEvaluation : Nat → ParseFn → Str → Res
  | fuel, parse, expression =>
    if pyStartswith expression (lit "(/") then
      let content := pyStrip ((expression.drop 2).dropLast)
      let args := splitAtTopLevel content
      match args with
      | a0 :: a1 :: _ => do
        let numerator ← parse a0
        let denominator ← parse a1
        return lit "\\frac\x7b" ++ numerator ++ lit "\x7d\x7b" ++ denominator ++ lit "\x7d"
      | _ => handleDivision parse expression
    else if pyStartswith expression (lit "(*") then
      let content := pyStrip ((expression.drop 2).dropLast)
      let args := splitAtTopLevel content
      if !args.isEmpty then do
        let parsed ← args.mapM parse
        return joinSep (lit " \\cdot ") parsed
      else handleMultiplication parse expression
    else if pyStartswith expression (lit "(+") then
      let content := pyStrip ((expression.drop 2).dropLast)
      let args := splitAtTopLevel content
      if !args.isEmpty then do
        let parsed ← args.mapM parse
        return joinSep (lit " + ") parsed
      else handleAddition parse expression
    else if pyStartswith expression (lit "(-") then
      let content := pyStrip ((expression.drop 2).dropLast)
      let args := splitAtTopLevel content
      match args with
      | a0 :: a1 :: _ => do
        let minuend ← parse a0
        let subtrahend ← parse a1
        return minuend ++ lit " - " ++ subtrahend
      | _ => handleSubtraction parse expression
    else
      -- unreachable from `parse_expression` (its guard requires one of the
      -- four prefixes above); translated nonetheless
      let selfComplex : Str → Res :=
        match fuel with
        | 0 => fun _ => throw PyErr.recursionError
        | n + 1 => handleComplexEvaluation n parse
      do
      let modified := regexSub
        (fun s => (labelMatchAt s).map (fun g => (replaceLabelsFn g.1 g.2.1, g.2.2)))
        expression
      let modified ← regexSubM
        (fun s => (applyMatchAt s).map
          (fun g => (replaceFunctionsFn parse g.1 g.2.1, g.2.2)))
        modified
      let modified := regexSub
        (fun s => (opMatchAt '/' s).map
          (fun g => (lit "\\frac\x7b" ++ g.1 ++ lit "\x7d\x7b" ++ g.2.1 ++ lit "\x7d", g.2.2)))
        modified
      let modified := regexSub
        (fun s => (opMatchAt '*' s).map
          (fun g => (g.1 ++ lit " \\cdot " ++ g.2.1, g.2.2)))
        modified
      let modified := regexSub
        (fun s => (opMatchAt '+' s).map
          (fun g => (g.1 ++ lit " + " ++ g.2.1, g.2.2)))
        modified
      let modified := regexSub
        (fun s => (opMatchAt '-' s).map
          (fun g => (g.1 ++ lit " - " ++ g.2.1, g.2.2)))
        modified
      let modified := regexSub
        (fun s => (opMatchAt '^' s).map
          (fun g => (lit "\x7b" ++ g.1 ++ lit "\x7d^\x7b" ++ g.2.1 ++ lit "\x7d", g.2.2)))
        modified
      let modified := regexSub
        (fun s => (tagMarkMatchAt s).map (fun n => ([], n)))
        modified
      let modified := modified.filter (fun c => c ≠ ')')
      if modified = expression then
        if pyStartswith expression (lit "(/") then handleDivision parse expression
        else if pyStartswith expression (lit "(*") then handleMultiplication parse expression
        else if pyStartswith expression (lit "(+") then handleAddition parse expression
        else if pyStartswith expression (lit "(-") then handleSubtraction parse expression
        else
          regexSubM
            (fun s => (specialTagMatchAt s).map (fun g =>
              (match handlerByName parse selfComplex (pyLower g.1) with
               | some h => h (lit "(@" ++ g.1 ++ g.2.1 ++ lit ")")
               | none => pure (lit "(@" ++ g.1 ++ g.2.1 ++ lit ")"), g.2.2)))
            expression
      else
        return modified

/-! ## `parse_expression` and `translate`

The fuel parameter models Python's bounded call stack: each nested
`parse_expression` call consumes one unit, and exhaustion is Python's
`RecursionError`. -/

def parseExpression : Nat → Str → Res
  | 0, _ => throw PyErr.recursionError
  | fuel + 1, expression =>
    -- `if not expression: return ""`
    if expression.isEmpty then pure []
    else
      let e := pyStrip expression
      let parse : ParseFn := parseExpression fuel
      if (pyStartswith e (lit "(/") || pyStartswith e (lit "(*")
          || pyStartswith e (lit "(+") || pyStartswith e (lit "(-"))
         && (containsSubstr e (lit "(@LABEL") || containsSubstr e (lit "(@APPLY")) then
        handleComplexEvaluation fuel parse e
      else if pyStartswith e (lit "(+") then handleAddition parse e
      else if pyStartswith e (lit "(-") then handleSubtraction parse e
      else if pyStartswith e (lit "(*") then handleMultiplication parse e
      else if pyStartswith e (lit "(/") then handleDivision parse e
      else if pyStartswith e (lit "(^") then handlePower parse e
      else if e = lit "e" then pure (lit "e")
      else if e = lit "∞" then pure (lit "\\infty")
      else if e.length = 1 && (tblLookup greekLetters e).isSome then
        pure ((tblLookup greekLetters e).getD [])
      else if e.length = 1 && (tblLookup specialSymbols e).isSome then
        pure ((tblLookup specialSymbols e).getD [])
      else
        let e := greekLetters.foldl (fun acc p => pyReplace acc p.1 p.2) e
        let e := specialSymbols.foldl (fun acc p => pyReplace acc p.1 p.2) e
        let e := pyReplace e (lit "∞") (lit "\\infty")
        if pyStartswith e (lit "(@INTEGRAL") then
          (handleIntegral parse e).map addSpacesAfterCommands
        else if pyStartswith e (lit "(@PART_DERIV") then
          (handlePartialDerivative parse e).map addSpacesAfterCommands
        else if pyStartswith e (lit "(@LIMIT") then
          (handleLimit parse e).map addSpacesAfterCommands
        else if pyStartswith e (lit "(@DERIV") then
          (handleDerivative parse e).map addSpacesAfterCommands
        else if pyStartswith e (lit "(@PRIME") then
          (handlePrime parse e).map addSpacesAfterCommands
        else if pyStartswith e (lit "(@NTHROOT") then
          (handleNthroot parse e).map addSpacesAfterCommands
        else if pyStartswith e (lit "(@PRODUCT") then
          (handleProduct parse e).map addSpacesAfterCommands
        else if pyStartswith e (lit "(@SUM") then
          (handleSum parse e).map addSpacesAfterCommands
        else if pyStartswith e (lit "(@APPLY") then
          (handleApply parse e).map addSpacesAfterCommands
        else if pyStartswith e (lit "(@ARGS") then
          (handleArgs parse e).map addSpacesAfterCommands
        else if pyStartswith e (lit "(@ELEMENT_OF") then
          (handleElementOf parse e).map addSpacesAfterCommands
        else if pyStartswith e (lit "(@XOR") then
          (handleXor parse e).map addSpacesAfterCommands
        else if pyStartswith e (lit "(@GEQ") then
          (handleGeq parse e).map addSpacesAfterCommands
        else if pyStartswith e (lit "(@LEQ") then
          (handleLeq parse e).map addSpacesAfterCommands
        else if pyStartswith e (lit "(@AND") then
          (handleAnd parse e).map addSpacesAfterCommands
        else if pyStartswith e (lit "(@OR") then
          (handleOr parse e).map addSpacesAfterCommands
        else if pyStartswith e (lit "(@NOT") then
          (handleNot parse e).map addSpacesAfterCommands
        else if pyStartswith e (lit "(@NEQ") then
          (handleNeq parse e).map addSpacesAfterCommands
        else if pyStartswith e (lit "(@NEG") then
          (handleNegation parse e).map addSpacesAfterCommands
        else if pyStartswith e (lit "(@SCALE") then
          (handleScale parse e).map addSpacesAfterCommands
        else if pyStartswith e (lit "(@RSCALE") then
          (handleRscale parse e).map addSpacesAfterCommands
        else if pyStartswith e (lit "(@PARENS") then
          (handleParentheses parse e).map addSpacesAfterCommands
        else if pyStartswith e (lit "(@LABEL") then
          (handleLabel parse e).map addSpacesAfterCommands
        else if pyStartswith e (lit "(@IS") then
          (handleIs parse e).map addSpacesAfterCommands
        else if pyStartswith e (lit "(@MATRIX") then
          (handleMatrix parse e).map addSpacesAfterCommands
        else if pyStartswith e (lit "(@CROSS") then
          (handleCross parse e).map addSpacesAfterCommands
        else if pyStartswith e (lit "(@DOT") then
          (handleDot parse e).map addSpacesAfterCommands
        else if pyStartswith e (lit "(@SYM_EVAL") then
          (handleSymEval parse e).map addSpacesAfterCommands
        else if pyStartswith e (lit "(@SUB") then
          (handleSubscript parse e).map addSpacesAfterCommands
        else if pyStartswith e (lit "(@ID") && containsSubstr e (lit "(@SUB") then
          (handleIdentifierWithSubscript parse e).map addSpacesAfterCommands
        else if pyStartswith e (lit "(@EQ") then
          (handleEquation parse e).map addSpacesAfterCommands
        else if pyStartswith e (lit "(=") then
          (handleEquals parse e).map addSpacesAfterCommands
        else
          pure (addSpacesAfterCommands e)

/-- `translate` (the class method simply delegates to `parse_expression`;
named `translateMathcad` because Mathlib already declares `translate`). -/
def translateMathcad (fuel : Nat) (mathcadExpr : Str) : Res := parseExpression fuel mathcadExpr

/-! ## `refine_latex`

Rule 2's loop builds a pattern `([^\\])OP([^\s])` from each raw operator
string.  For `op = '\cdot'` the pattern contains the escape `\c`, which
`re.search` rejects (`re.error: bad escape \c`) on every Python version that
can run this source, so the loop raises before reaching the later rules for
every input that passes the initial emptiness guard. -/

/-- `\w` (ASCII range). -/
def isWordChar (c : Char) : Bool := c.isAlphanum || c = '_'

/-- `{` (written via its code point to keep braces out of literals). -/
def lbrace : Char := Char.ofNat 123

/-- `}` -/
def rbrace : Char := Char.ofNat 125

/-- `re.search` as existence of a match at some position. -/
def regexSearchB (matchAt : Str → Option (Str × Nat)) : Str → Bool
  | [] => (matchAt []).isSome
  | c :: rest => (matchAt (c :: rest)).isSome || regexSearchB matchAt rest

/-- Match one alternative of `(\w+|\([^)]+\))` at the head. -/
def fracGroupAt (s : Str) : Option (Str × Nat) :=
  match s with
  | [] => none
  | c :: _ =>
    if isWordChar c then
      let g := s.takeWhile isWordChar
      some (g, g.length)
    else if c = '(' then
      let inner := (s.drop 1).takeWhile (fun x => x ≠ ')')
      if inner.isEmpty then none
      else
        match (s.drop 1).drop inner.length with
        | ')' :: _ => some ('(' :: inner ++ [')'], inner.length + 2)
        | _ => none
    else none

/-- Match rule 1's `(\w+|\([^)]+\)) */ *(\w+|\([^)]+\))` at the head,
returning the `\frac` replacement and the matched length. -/
def fracMatchAt (s : Str) : Option (Str × Nat) :=
  match fracGroupAt s with
  | none => none
  | some (g1, n1) =>
    let r := s.drop n1
    let sp1 := r.takeWhile (fun c => c = ' ')
    let r1 := r.drop sp1.length
    match r1 with
    | '/' :: r2 =>
      let sp2 := r2.takeWhile (fun c => c = ' ')
      let r3 := r2.drop sp2.length
      match fracGroupAt r3 with
      | some (g2, n2) =>
        some (lit "\\frac\x7b" ++ g1 ++ lit "\x7d\x7b" ++ g2 ++ lit "\x7d",
              n1 + sp1.length + 1 + sp2.length + n2)
      | none => none
    | _ => none

/-- Rule 2's operator list, in source order. -/
def ruleTwoOps : List Str :=
  [lit "+", lit "-", lit "=", lit "\\times", lit "\\cdot",
   lit "<", lit ">", lit "\\leq", lit "\\geq", lit "\\neq"]

/-- The characters rule 2 escapes with a leading backslash. -/
def ruleTwoEscapeList : List Str :=
  [lit "+", lit "-", lit "*", lit ".", lit "(", lit ")", lit "[", lit "]",
   lit "\x7b", lit "\x7d", lit "\\"]

/-- Resolve one regex escape `\c`: `\t`/`\n`/`\r` are control characters,
an escaped non-alphanumeric character is that literal character, and an
unknown ASCII letter or digit escape is `re.error` (`none`). -/
def regexEscapeChar (c : Char) : Option Char :=
  if c = 't' then some (Char.ofNat 9)
  else if c = 'n' then some (Char.ofNat 10)
  else if c = 'r' then some (Char.ofNat 13)
  else if c.isAlpha || c.isDigit then none
  else some c

/-- Interpret an operator string as the literal character sequence its
compiled regex (or replacement template) denotes; `none` is `re.error`.
(Class escapes such as `\s` never occur in the strings this is applied to
before an invalid escape has already raised.) -/
def compileOpPattern : Str → Option Str
  | [] => some []
  | '\\' :: c :: rest =>
    match regexEscapeChar c with
    | some ch => (compileOpPattern rest).map (fun r => ch :: r)
    | none => none
  | '\\' :: [] => none
  | c :: rest => (compileOpPattern rest).map (fun r => c :: r)

/-- Match `([^\\])L([^\s])` at the head (`L` the compiled operator literal,
`mid` the replacement's operator text), returning `\1 mid \2`. -/
def opSpaceMatchAt (L mid : Str) (s : Str) : Option (Str × Nat) :=
  match s with
  | [] => none
  | c :: rest =>
    if c ≠ '\\' ∧ List.isPrefixOf L rest then
      match rest.drop L.length with
      | d :: _ =>
        if !d.isWhitespace then
          some ([c] ++ [' '] ++ mid ++ [' '] ++ [d], 1 + L.length + 1)
        else none
      | [] => none
    else none

/-- One iteration of rule 2's `for op in operators` loop. -/
def ruleTwoStep (state : Str × Bool) (op : Str) : Except PyErr (Str × Bool) := do
  let escapedOp := if ruleTwoEscapeList.contains op then lit "\\" ++ op else op
  match compileOpPattern escapedOp with
  | none => throw PyErr.reError
  | some L =>
    if regexSearchB (opSpaceMatchAt L []) state.1 then
      match compileOpPattern op with
      | none => throw PyErr.reError
      | some mid => pure (regexSub (opSpaceMatchAt L mid) state.1, true)
    else pure state

/-- Match rule 3's `(\w+)\^(\w)` at the head. -/
def supMatchAt (s : Str) : Option (Str × Nat) :=
  let g1 := s.takeWhile isWordChar
  if g1.isEmpty then none
  else
    match s.drop g1.length with
    | '^' :: d :: _ =>
      if isWordChar d then
        some (g1 ++ lit "^\x7b" ++ [d] ++ lit "\x7d", g1.length + 2)
      else none
    | _ => none

/-- One candidate for rule 4's content (`aLen` = length of the leading
`[^()]*` part). -/
def rule4At (r : Str) (aLen : Nat) : Option (Str × Nat) :=
  let A := r.take aLen
  if !(A.all (fun c => c ≠ '(' && c ≠ ')')) then none
  else
    let r1 := r.drop aLen
    if pyStartswith r1 (lit "\\frac\x7b") then
      let r2 := r1.drop 6
      let B := r2.takeWhile (fun c => c ≠ lbrace && c ≠ rbrace)
      let r3 := r2.drop B.length
      if r3.headD ' ' = rbrace ∧ (r3.drop 1).headD ' ' = lbrace then
        let r4 := r3.drop 2
        let C := r4.takeWhile (fun c => c ≠ lbrace && c ≠ rbrace)
        let r5 := r4.drop C.length
        if r5.headD ' ' = rbrace then
          let r6 := r5.drop 1
          let D := r6.takeWhile (fun c => c ≠ '(' && c ≠ ')')
          match r6.drop D.length with
          | ')' :: _ =>
            let content := A ++ lit "\\frac\x7b" ++ B ++ lit "\x7d\x7b" ++ C
              ++ lit "\x7d" ++ D
            some (lit "\\left(" ++ content ++ lit "\\right)", content.length + 2)
          | _ => none
        else none
      else none
    else none

/-- Greedy backtracking over the leading `[^()]*` of rule 4, longest first. -/
def rule4TryA (r : Str) : Nat → Option (Str × Nat)
  | 0 => rule4At r 0
  | a + 1 =>
    match rule4At r (a + 1) with
    | some res => some res
    | none => rule4TryA r a

/-- Match rule 4's `\(([^()]*\\frac{[^{}]*}{[^{}]*}[^()]*)\)` at the head. -/
def rule4MatchAt (s : Str) : Option (Str × Nat) :=
  match s with
  | '(' :: r =>
    (rule4TryA r ((r.takeWhile (fun c => c ≠ '(' && c ≠ ')')).length)).map
      (fun g => (g.1, g.2 + 1))
  | _ => none

/-- Rule 5's function list, in source order. -/
def mathFuncsRefine : List Str :=
  [lit "sin", lit "cos", lit "tan", lit "cot", lit "sec", lit "csc",
   lit "arcsin", lit "arccos", lit "arctan", lit "sinh", lit "cosh",
   lit "tanh", lit "log", lit "ln", lit "exp", lit "lim", lit "max", lit "min"]

/-- The scan of rule 5's `(?<![\\a-zA-Z])FUNC(?![a-zA-Z])` substitution;
`prev` is the character before the current position. -/
def rule5Go (func : Str) : Option Char → Nat → Str → Str
  | _, _, [] => []
  | _, 0, s => s
  | prev, fuelLeft + 1, c :: rest =>
    let behindOk :=
      match prev with
      | none => true
      | some p => !(p = '\\' || p.isAlpha)
    if behindOk && List.isPrefixOf func (c :: rest) then
      let after := rest.drop (func.length - 1)
      if (match after with | a :: _ => !a.isAlpha | [] => true) then
        '\\' :: func ++ rule5Go func (some (func.getLastD ' ')) fuelLeft after
      else c :: rule5Go func (some c) fuelLeft rest
    else c :: rule5Go func (some c) fuelLeft rest

/-- The matching `re.search` for rule 5. -/
def rule5Found (func : Str) : Option Char → Str → Bool
  | _, [] => false
  | prev, c :: rest =>
    let behindOk :=
      match prev with
      | none => true
      | some p => !(p = '\\' || p.isAlpha)
    (behindOk && List.isPrefixOf func (c :: rest)
      && (match rest.drop (func.length - 1) with
          | a :: _ => !a.isAlpha
          | [] => true))
    || rule5Found func (some c) rest

/-- One iteration of rule 5's loop. -/
def rule5Step (state : Str × Bool) (func : Str) : Str × Bool :=
  if rule5Found func none state.1 then (rule5Go func none state.1.length state.1, true)
  else state

/-- Rule 6's command list. -/
def rule6Cmds : List Str := [lit "\\int", lit "\\sum", lit "\\prod"]

/-- Match rule 6's `CMD(_{[^}]*}\^{[^}]*})` at the head given the compiled
command literal `L` and the replacement text `rep` for `\displaystyle CMD`. -/
def dispMatchAt (L rep : Str) (s : Str) : Option (Str × Nat) :=
  if List.isPrefixOf L s then
    let r := s.drop L.length
    if r.headD ' ' = '_' ∧ (r.drop 1).headD ' ' = lbrace then
      let B := (r.drop 2).takeWhile (fun c => c ≠ rbrace)
      let r1 := (r.drop 2).drop B.length
      if r1.headD ' ' = rbrace ∧ (r1.drop 1).headD ' ' = '^'
          ∧ (r1.drop 2).headD ' ' = lbrace then
        let C := (r1.drop 3).takeWhile (fun c => c ≠ rbrace)
        let r2 := (r1.drop 3).drop C.length
        if r2.headD ' ' = rbrace then
          let g1 := '_' :: lbrace :: B ++ rbrace :: '^' :: lbrace :: C ++ [rbrace]
          some (rep ++ g1, L.length + g1.length)
        else none
      else none
    else none
  else none

/-- One iteration of rule 6's loop: the f-string pattern starts with the raw
command (`\int` contains the invalid escape `\i`), so compiling it raises. -/
def rule6Step (state : Str × Bool) (cmd : Str) : Except PyErr (Str × Bool) :=
  match compileOpPattern cmd with
  | none => throw PyErr.reError
  | some L =>
    if regexSearchB (dispMatchAt L []) state.1 then
      match compileOpPattern cmd with
      | none => throw PyErr.reError
      | some _ =>
        pure (regexSub (dispMatchAt L (lit "\\displaystyle" ++ cmd)) state.1, true)
    else pure state

/-- Rule 7's skip list of likely variable names. -/
def rule7SkipList : List Str :=
  [lit "x", lit "y", lit "z", lit "i", lit "j", lit "k", lit "t",
   lit "n", lit "a", lit "b", lit "c"]

/-- Rule 7's `([0-9]+) *([a-zA-Z]+)` substitution with the `process_units`
callback; returns the rewritten string and whether any non-skipped
replacement fired. -/
def rule7Go : Nat → Str → Str × Bool
  | _, [] => ([], false)
  | 0, s => (s, false)
  | fuelLeft + 1, c :: rest =>
    if c.isDigit then
      let num := (c :: rest).takeWhile Char.isDigit
      let r1 := (c :: rest).drop num.length
      let sp := r1.takeWhile (fun x => x = ' ')
      let r2 := r1.drop sp.length
      let unitG := r2.takeWhile Char.isAlpha
      if unitG.isEmpty then
        let t := rule7Go fuelLeft rest
        (c :: t.1, t.2)
      else
        let matchedLen := num.length + sp.length + unitG.length
        let t := rule7Go fuelLeft (rest.drop (matchedLen - 1))
        if rule7SkipList.contains unitG || containsSubstr unitG (lit "\\") then
          ((num ++ sp ++ unitG) ++ t.1, t.2)
        else
          (num ++ lit "\\,\\mathrm\x7b" ++ unitG ++ lit "\x7d" ++ t.1, true)
    else
      let t := rule7Go fuelLeft rest
      (c :: t.1, t.2)

/-- `refine_latex` on a (non-`None`) string argument. -/
def refineLatex (latexExpression : Str) : Res :=
  -- `if not latex_expression or not isinstance(latex_expression, str)`
  if latexExpression.isEmpty then pure latexExpression
  else do
    -- 1. divisions to `\frac`
    let state : Str × Bool :=
      if regexSearchB fracMatchAt latexExpression then
        (regexSub fracMatchAt latexExpression, true)
      else (latexExpression, false)
    -- 2. operator spacing (raises `re.error` at `\cdot`)
    let state ← ruleTwoOps.foldlM ruleTwoStep state
    -- 3. braced superscripts
    let state :=
      if regexSearchB supMatchAt state.1 then (regexSub supMatchAt state.1, true)
      else state
    -- 4. `\left`/`\right` around parenthesized fractions
    let state :=
      if regexSearchB rule4MatchAt state.1 then (regexSub rule4MatchAt state.1, true)
      else state
    -- 5. escape bare function names
    let state := mathFuncsRefine.foldl rule5Step state
    -- 6. `\displaystyle` on big operators (raises `re.error` at `\int`)
    let state ← rule6Cmds.foldlM rule6Step state
    -- 7. `\,\mathrm` between numbers and unit-like tokens
    let state :=
      let t := rule7Go state.1.length state.1
      (t.1, state.2 || t.2)
    -- 8. comment when nothing fired
    if state.2 then pure state.1
    else pure (state.1 ++ lit "  % No further refinements available")

/-- A Python value that may or may not be a string, for `refine_latex`'s
`isinstance` guard. -/
inductive PyObj where
  | pyStr (s : Str)
  | other (tag : Nat)
  deriving DecidableEq, Repr

/-- `refine_latex` on an arbitrary Python value: a non-string argument is
returned unchanged by the leading guard. -/
def refineLatexDyn (v : PyObj) : Except PyErr PyObj :=
  match v with
  | .other t => pure (.other t)
  | .pyStr s => (refineLatex s).map .pyStr

/-- `convert_mathcad_to_latex`. -/
def convertMathcadToLatex (fuel : Nat) (mathcadExpr : Str) : Res := do
  let latexExpr ← translateMathcad fuel mathcadExpr
  refineLatex latexExpr

/-! ## Supporting lemmas -/

theorem containsSubstrNil (s : Str) : containsSubstr s [] = true := by
  induction s with
  | nil => rfl
  | cons c rest ih => simp [containsSubstr, List.isPrefixOf, ih]

theorem pyReplaceGoNotOccurs (p : Char) (ps rep : Str) :
    ∀ (s : Str) (n : Nat), containsSubstr s (p :: ps) = false →
      pyReplaceGo p ps rep n s = s := by
  intro s
  induction s with
  | nil => intro n _; cases n <;> rfl
  | cons c rest ih =>
    intro n h
    simp only [containsSubstr, Bool.or_eq_false_iff] at h
    cases n with
    | zero => rfl
    | succ m =>
      simp only [pyReplaceGo, h.1, Bool.false_eq_true, if_false]
      rw [ih m h.2]

theorem pyReplaceNotOccurs (s pat rep : Str) (h : containsSubstr s pat = false) :
    pyReplace s pat rep = s := by
  cases pat with
  | nil => rw [containsSubstrNil] at h; cases h
  | cons p ps => exact pyReplaceGoNotOccurs p ps rep s s.length h

theorem foldReplaceId (tbl : List (Str × Str)) (s : Str)
    (h : ∀ p ∈ tbl, containsSubstr s p.1 = false) :
    tbl.foldl (fun acc p => pyReplace acc p.1 p.2) s = s := by
  induction tbl with
  | nil => rfl
  | cons q rest ih =>
    simp only [List.foldl_cons]
    rw [pyReplaceNotOccurs s q.1 q.2 (h q (List.mem_cons_self q rest))]
    exact ih (fun p hp => h p (List.mem_cons_of_mem q hp))

/-- The single characters the symbol-replacement step of `parse_expression`
can rewrite: the Greek-letter keys, the special-symbol keys, and `∞`. -/
def symbolChars : List Char :=
  (greekLetters.map (fun p => p.1.headD ' '))
    ++ (specialSymbols.map (fun p => p.1.headD ' ')) ++ ['∞']

/-- No character of `s` is subject to symbol replacement. -/
def symbolFree (s : Str) : Bool := s.all (fun c => !symbolChars.contains c)

theorem containsSingleOfNotMem (s : Str) (c : Char) (h : c ∉ s) :
    containsSubstr s [c] = false := by
  induction s with
  | nil => rfl
  | cons d rest ih =>
    simp only [List.mem_cons, not_or] at h
    simp only [containsSubstr, List.isPrefixOf, Bool.or_eq_false_iff,
      Bool.and_eq_false_iff]
    constructor
    · left
      simp only [beq_eq_false_iff_ne, ne_eq]
      exact h.1
    · exact ih h.2

theorem symbolFreeNotMem (s : Str) (c : Char) (hs : symbolFree s = true)
    (hc : symbolChars.contains c = true) : c ∉ s := by
  intro hmem
  have := List.all_eq_true.mp hs c hmem
  simp only [Bool.not_eq_true', hc] at this
  cases this

/-- On a symbol-free string the whole replacement chain of
`parse_expression` is the identity. -/
theorem symbolReplaceId (s : Str) (hs : symbolFree s = true) :
    pyReplace
      (specialSymbols.foldl (fun acc p => pyReplace acc p.1 p.2)
        (greekLetters.foldl (fun acc p => pyReplace acc p.1 p.2) s))
      (lit "∞") (lit "\\infty") = s := by
  have hkeys : ∀ p ∈ greekLetters,
      p.1 = [p.1.headD ' '] ∧ symbolChars.contains (p.1.headD ' ') = true := by decide
  have hkeys2 : ∀ p ∈ specialSymbols,
      p.1 = [p.1.headD ' '] ∧ symbolChars.contains (p.1.headD ' ') = true := by decide
  have hinf : symbolChars.contains '∞' = true := by decide
  have h1 : greekLetters.foldl (fun acc p => pyReplace acc p.1 p.2) s = s := by
    apply foldReplaceId
    intro p hp
    rw [(hkeys p hp).1]
    exact containsSingleOfNotMem s _ (symbolFreeNotMem s _ hs (hkeys p hp).2)
  rw [h1]
  have h2 : specialSymbols.foldl (fun acc p => pyReplace acc p.1 p.2) s = s := by
    apply foldReplaceId
    intro p hp
    rw [(hkeys2 p hp).1]
    exact containsSingleOfNotMem s _ (symbolFreeNotMem s _ hs (hkeys2 p hp).2)
  rw [h2]
  exact pyReplaceNotOccurs s _ _
    (containsSingleOfNotMem s _ (symbolFreeNotMem s _ hs hinf))

theorem nilIsPrefixOf (l : Str) : List.isPrefixOf ([] : Str) l = true := by
  cases l <;> rfl

theorem exceptBindOk {α β : Type} (a : α) (f : α → Except PyErr β) :
    (Except.ok a : Except PyErr α) >>= f = f a := rfl

/-! ## Claim theorems -/

set_option maxRecDepth 10000

/-- C1: the plain binary-operator handlers satisfy the spec's exact
equalities: `translate("(+ x y)") = "x + y"`,
`translate("(/ x y)") = "\frac{x}{y}"`, and
`translate("(^ x 2)") = "{x}^{2}"`. -/
theorem claimC1_binaryOperators :
    translateMathcad 10 (lit "(+ x y)") = .ok (lit "x + y")
    ∧ translateMathcad 10 (lit "(/ x y)") = .ok (lit "\\frac\x7bx\x7d\x7by\x7d")
    ∧ translateMathcad 10 (lit "(^ x 2)") = .ok (lit "\x7bx\x7d^\x7b2\x7d") :=
  ⟨by decide, by decide, by decide⟩

/-- C2 counterexample: `parse_expression` is not total — the MATRIX handler
calls `int("a")` on `"(@MATRIX a b c)"` and raises `ValueError`. -/
theorem claimC2_counterexample :
    translateMathcad 10 (lit "(@MATRIX a b c)") = .error PyErr.valueError := by
  decide

/-- C2 amended: `parse_expression` raises `ValueError` when the MATRIX
handler's row/column counts or the PRIME handler's repetition count are not
integer literals; aside from these `int()` conversions (and stack
exhaustion on deep nesting) it returns best-effort text, as the sampled
well-formed, malformed, and unknown-tag inputs show. -/
theorem claimC2_amended :
    translateMathcad 10 (lit "(@PRIME f x)") = .error PyErr.valueError
    ∧ translateMathcad 10 (lit "(@PRIME f 2)")
        = .ok (lit "f" ++ List.replicate 2 (Char.ofNat 39))
    ∧ translateMathcad 10 (lit "(@MATRIX 2 2 a b c d)")
        = .ok (lit "\\begin\x7bpmatrix\x7d\na & b \\\\\nc & d\n\\end\x7bpmatrix\x7d")
    ∧ translateMathcad 10 (lit "(@LIMIT x 0 g)") = .ok (lit "\\lim_\x7bx \\to 0\x7d g")
    ∧ translateMathcad 10 (lit "(((") = .ok (lit "(((")
    ∧ translateMathcad 10 (lit "(@UNKNOWN_TAG x)") = .ok (lit "(@UNKNOWN_TAG x)")
    ∧ translateMathcad 10 (lit "") = .ok [] :=
  ⟨by decide, by decide, by decide, by decide, by decide, by decide, by decide⟩

/-- C3 (code bug): `refine_latex` never returns on a nonempty input — its
operator-spacing rule builds the regex pattern `([^\\])\cdot([^\s])` from
the raw operator `\cdot`, whose escape `\c` makes `re.search` raise
`re.error`; only the empty string (returned by the leading guard) escapes.
Hence `refine(refine(s))` cannot be compared with `refine(s)` at all. -/
theorem claimC3_refineRaises :
    refineLatex (lit "x") = .error PyErr.reError
    ∧ refineLatex (lit "\\frac\x7ba\x7d\x7bb\x7d") = .error PyErr.reError
    ∧ refineLatex (lit "\\sum_\x7bi=1\x7d^\x7bn\x7d i") = .error PyErr.reError
    ∧ refineLatex (lit "") = .ok [] :=
  ⟨by decide, by decide, by decide, by decide⟩

/-- C4: for every key of the Greek-letter table (all of which are single
characters), `translate` returns exactly the table's LaTeX value. -/
theorem claimC4_greekTable :
    ∀ p ∈ greekLetters, translateMathcad 2 p.1 = .ok p.2 := by decide

/-- C4 witness: the table fact instantiated at `α ↦ \alpha`. -/
theorem claimC4_witness :
    (lit "α", lit "\\alpha") ∈ greekLetters
    ∧ translateMathcad 2 (lit "α") = .ok (lit "\\alpha") :=
  ⟨by decide, claimC4_greekTable (lit "α", lit "\\alpha") (by decide)⟩

/-- C5: the nth-root handler collapses order `@PLACEHOLDER` or `"2"` to a
plain square root and otherwise emits an indexed root. -/
theorem claimC5_nthroot :
    translateMathcad 10 (lit "(@NTHROOT 2 x)") = .ok (lit "\\sqrt\x7bx\x7d")
    ∧ translateMathcad 10 (lit "(@NTHROOT 3 x)") = .ok (lit "\\sqrt[3]\x7bx\x7d")
    ∧ translateMathcad 10 (lit "(@NTHROOT @PLACEHOLDER x)") = .ok (lit "\\sqrt\x7bx\x7d") :=
  ⟨by decide, by decide, by decide⟩

/-- C6 counterexample: the derivative handler does not emit the claim's
`"\frac{d}{dx} f"` — the code writes the differential as `\mathrm{d}`. -/
theorem claimC6_counterexample :
    translateMathcad 10 (lit "(@DERIV x 1 f)") ≠ .ok (lit "\\frac\x7bd\x7d\x7bdx\x7d f") := by
  decide

/-- C6 amended: the derivative handler defaults order `@PLACEHOLDER` to 1,
emits `\frac{\mathrm{d}}{\mathrm{d}x} f` for order `"1"` and
`\frac{\mathrm{d}^n}{\mathrm{d}x^n} f` otherwise, and unwraps a
`(@PARENS ...)` function argument into `\left(...\right)`. -/
theorem claimC6_amended :
    translateMathcad 10 (lit "(@DERIV x 1 f)")
      = .ok (lit "\\frac\x7b\\mathrm\x7bd\x7d\x7d\x7b\\mathrm\x7bd\x7dx\x7d f")
    ∧ translateMathcad 10 (lit "(@DERIV x @PLACEHOLDER f)")
      = .ok (lit "\\frac\x7b\\mathrm\x7bd\x7d\x7d\x7b\\mathrm\x7bd\x7dx\x7d f")
    ∧ translateMathcad 10 (lit "(@DERIV x 2 f)")
      = .ok (lit "\\frac\x7b\\mathrm\x7bd\x7d^\x7b2\x7d\x7d\x7b\\mathrm\x7bd\x7dx^\x7b2\x7d\x7d f")
    ∧ translateMathcad 10 (lit "(@DERIV x 1 (@PARENS y))")
      = .ok (lit "\\frac\x7b\\mathrm\x7bd\x7d\x7d\x7b\\mathrm\x7bd\x7dx\x7d \\left(y\\right)") :=
  ⟨by decide, by decide, by decide, by decide⟩

/-- C7: every input whose stripped form starts with `(@INTEGRAL`, contains
no replaceable symbol characters, and yields fewer than four extracted
arguments translates to the degraded default `\int{}` (first conjunct);
with exactly four arguments the handler emits
`\int_{lower}^{upper} integrand \, dvariable` (second conjunct, at the
spec's own example). -/
theorem claimC7_integral :
    (∀ (e rest : Str) (fuel : Nat),
      pyStrip e = lit "(@INTEGRAL" ++ rest →
      symbolFree (pyStrip e) = true →
      (extractArguments (pyStrip e)).length < 4 →
      translateMathcad (fuel + 1) e = .ok (lit "\\int\x7b\x7d"))
    ∧ translateMathcad 10 (lit "(@INTEGRAL 0 1 x^2 x)")
        = .ok (lit "\\int_\x7b0\x7d^\x7b1\x7d x^2 \\, dx") := by
  constructor
  · intro e rest fuel hpre hsym hlen
    show parseExpression (fuel + 1) e = .ok (lit "\\int\x7b\x7d")
    have hne : e.isEmpty = false := by
      cases e with
      | nil =>
        exfalso
        rw [show pyStrip ([] : Str) = [] from rfl] at hpre
        exact absurd (List.append_eq_nil.mp hpre.symm).1 (by decide)
      | cons c cs => rfl
    rw [hpre] at hsym hlen
    have h1 : pyStartswith (lit "(@INTEGRAL" ++ rest) (lit "(/") = false := rfl
    have h2 : pyStartswith (lit "(@INTEGRAL" ++ rest) (lit "(*") = false := rfl
    have h3 : pyStartswith (lit "(@INTEGRAL" ++ rest) (lit "(+") = false := rfl
    have h4 : pyStartswith (lit "(@INTEGRAL" ++ rest) (lit "(-") = false := rfl
    have h5 : pyStartswith (lit "(@INTEGRAL" ++ rest) (lit "(^") = false := rfl
    have he : ¬ ((lit "(@INTEGRAL" ++ rest) = lit "e") := by simp [lit]
    have hinf : ¬ ((lit "(@INTEGRAL" ++ rest) = lit "∞") := by simp [lit]
    have hl1 : (decide ((lit "(@INTEGRAL" ++ rest).length = 1)) = false := rfl
    have htrue : pyStartswith (lit "(@INTEGRAL" ++ rest) (lit "(@INTEGRAL") = true := by
      simp [pyStartswith, lit, List.isPrefixOf, nilIsPrefixOf]
    rw [parseExpression]
    simp only [hne, Bool.false_eq_true, if_false, hpre, h1, h2, h3, h4, h5,
      Bool.false_or, Bool.false_and, if_neg he, if_neg hinf, hl1,
      symbolReplaceId _ hsym, htrue, if_true]
    rcases hargs : extractArguments (lit "(@INTEGRAL" ++ rest) with
      _ | ⟨a0, _ | ⟨a1, _ | ⟨a2, _ | ⟨a3, rest2⟩⟩⟩⟩
    all_goals rw [hargs] at hlen
    · simp only [handleIntegral, hargs]; rfl
    · simp only [handleIntegral, hargs]; rfl
    · simp only [handleIntegral, hargs]; rfl
    · simp only [handleIntegral, hargs]; rfl
    · simp only [List.length_cons] at hlen; omega
  · decide

/-- C7 witness: the degraded-integral conjunct instantiated at
`"(@INTEGRAL x)"` (one extracted argument). -/
theorem claimC7_witness :
    pyStrip (lit "(@INTEGRAL x)") = lit "(@INTEGRAL" ++ lit " x)"
    ∧ symbolFree (pyStrip (lit "(@INTEGRAL x)")) = true
    ∧ (extractArguments (pyStrip (lit "(@INTEGRAL x)"))).length < 4
    ∧ translateMathcad 4 (lit "(@INTEGRAL x)") = .ok (lit "\\int\x7b\x7d") :=
  ⟨by decide, by decide, by decide,
   claimC7_integral.1 (lit "(@INTEGRAL x)") (lit " x)") 3 (by decide) (by decide)
     (by decide)⟩

/-- C8: the Apply handler maps the function name through the fixed table and
expands an `(@ARGS ...)` second argument to a comma-joined parsed list;
`abs` instead wraps its argument in `\left|...\right|`. -/
theorem claimC8_apply :
    translateMathcad 10 (lit "(@APPLY sin (@ARGS x))") = .ok (lit "\\sin(x)")
    ∧ translateMathcad 10 (lit "(@APPLY abs (@ARGS x))") = .ok (lit "\\left|x\\right|")
    ∧ translateMathcad 10 (lit "(@APPLY max (@ARGS x y))") = .ok (lit "\\max(x, y)") :=
  ⟨by decide, by decide, by decide⟩

/-- C9: on an expression with three extracted arguments whose first is not an
`(@IS ...)` wrapper, the Sum handler defaults the start value to `1`
(`\sum_{v=1}^{upper} expr`), while the Product handler takes the start value
from the second argument instead of applying that default (first conjunct,
for any parser callback); the translate-level instances show the asymmetry
end to end. -/
theorem claimC9_sumProductDefaults :
    (∀ (p : ParseFn) (e a b c va vb vc : Str),
      extractArguments e = [a, b, c] →
      pyStartswith a (lit "(@IS") = false →
      p a = .ok va → p b = .ok vb → p c = .ok vc → vb ≠ [] →
      handleSum p e
        = .ok (lit "\\sum_\x7b" ++ va ++ lit "=1\x7d^\x7b" ++ vb ++ lit "\x7d " ++ vc)
      ∧ handleProduct p e
        = .ok (lit "\\prod_\x7b" ++ va ++ lit "=" ++ vb ++ lit "\x7d^\x7b" ++ vc
            ++ lit "\x7d 1"))
    ∧ translateMathcad 10 (lit "(@SUM i 10 i)") = .ok (lit "\\sum_\x7bi=1\x7d^\x7b10\x7d i")
    ∧ translateMathcad 10 (lit "(@PRODUCT i 10 i)")
        = .ok (lit "\\prod_\x7bi=10\x7d^\x7bi\x7d 1") := by
  refine ⟨fun p e a b c va vb vc hext hIS hpa hpb hpc hvb => ?_, by decide, by decide⟩
  constructor
  · simp only [handleSum, hext, hIS, Bool.false_eq_true, if_false, hpa, hpb, hpc,
      exceptBindOk]
    simp [exceptBindOk, hpb, hpc]
    rfl
  · simp only [handleProduct, hext, hIS, Bool.false_eq_true, if_false, hpa, hpb, hpc,
      exceptBindOk, Bool.not_false, if_true]
    simp [exceptBindOk, hpb, hpc, hvb]
    rfl

/-- C9 witness: the handler-level conjunct instantiated on concrete
arguments (the handlers dispatch only on the extracted argument list). -/
theorem claimC9_witness :
    extractArguments (lit "(@SUM i 10 j)") = [lit "i", lit "10", lit "j"]
    ∧ pyStartswith (lit "i") (lit "(@IS") = false
    ∧ parseExpression 20 (lit "i") = .ok (lit "i")
    ∧ parseExpression 20 (lit "10") = .ok (lit "10")
    ∧ parseExpression 20 (lit "j") = .ok (lit "j")
    ∧ lit "10" ≠ ([] : Str)
    ∧ handleSum (parseExpression 20) (lit "(@SUM i 10 j)")
        = .ok (lit "\\sum_\x7bi=1\x7d^\x7b10\x7d j")
    ∧ handleProduct (parseExpression 20) (lit "(@SUM i 10 j)")
        = .ok (lit "\\prod_\x7bi=10\x7d^\x7bj\x7d 1") :=
  ⟨by decide, by decide, by decide, by decide, by decide, by decide,
   (claimC9_sumProductDefaults.1 (parseExpression 20) (lit "(@SUM i 10 j)")
     (lit "i") (lit "10") (lit "j") (lit "i") (lit "10") (lit "j")
     (by decide) (by decide) (by decide) (by decide) (by decide) (by decide)).1,
   (claimC9_sumProductDefaults.1 (parseExpression 20) (lit "(@SUM i 10 j)")
     (lit "i") (lit "10") (lit "j") (lit "i") (lit "10") (lit "j")
     (by decide) (by decide) (by decide) (by decide) (by decide) (by decide)).2⟩

/-- C10: `refine_latex` returns its argument unchanged for the empty string
and for non-string values — the leading guard fires before any rewrite, so
no "no further refinements" comment is appended. -/
theorem claimC10_refineGuard :
    (∀ t : Nat, refineLatexDyn (PyObj.other t) = .ok (PyObj.other t))
    ∧ refineLatexDyn (PyObj.pyStr []) = .ok (PyObj.pyStr []) :=
  ⟨fun _ => rfl, by decide⟩

/-- C10 witness: the guard fact at a concrete non-string value. -/
theorem claimC10_witness :
    refineLatexDyn (PyObj.other 7) = .ok (PyObj.other 7) :=
  claimC10_refineGuard.1 7
